import Mathlib

/-!
Verification of the alarm-clock firmware core: a shallow embedding of the
alarm engine (src/alarm_manager.cpp), the persisted-record loader, and the
audio playback coordinator (src/audio_test.cpp), with theorems settling the
stated properties of the specification.

Machine integers (uint8_t and friends) are modelled as Nat with explicit
truncation (mod 256) where the C code truncates.  The NVS durable store and
the ring callback are modelled as an explicit event trace emitted by each
operation, so claims about ordering (persist before ring) are claims about
the trace.
-/

namespace AlarmClock

/-- One configured alarm, mirroring struct AlarmData in alarm_manager.h. -/
structure AlarmData where
  id : Nat
  hour : Nat
  minute : Nat
  daysOfWeek : Nat
  sound : String
  enabled : Bool
  label : String
  snoozeEnabled : Bool
  permanentlyDisabled : Bool
  bottomRowLabel : String
deriving Repr, DecidableEq

/-- Engine state: the private fields of AlarmManager that the state machine
reads and writes (alarm list, ringing/snoozed flags, snooze target, dedup
key).  The durable store and callback are modelled via the event trace. -/
structure EngineState where
  alarms : List AlarmData
  alarmRinging : Bool
  ringingAlarmId : Nat
  lastCheckedMinute : Nat
  snoozed : Bool
  snoozeHour : Nat
  snoozeMinute : Nat
deriving Repr, DecidableEq

/-- Observable effects of an engine operation: a saveToNVS call carrying the
full alarm list written to durable storage, or an invocation of the ring
callback with an alarm id.  The order in the trace is the order of the
side effects in the C code. -/
inductive AlarmEvent where
  | persist (alarms : List AlarmData)
  | ring (id : Nat)
deriving Repr, DecidableEq

/-- AlarmManager constructor initial state. -/
def initialEngine : EngineState :=
  { alarms := []
    alarmRinging := false
    ringingAlarmId := 255
    lastCheckedMinute := 255
    snoozed := false
    snoozeHour := 0
    snoozeMinute := 0 }

/-- AlarmManager::shouldAlarmTrigger.  The C code computes
uint8_t dayBit = 1 << dayOfWeek, which truncates the shift to 8 bits. -/
def shouldAlarmTrigger (alarm : AlarmData) (hour minute dayOfWeek : Nat) : Bool :=
  if alarm.hour ≠ hour ∨ alarm.minute ≠ minute then false
  else if alarm.daysOfWeek = 0 then true
  else if alarm.daysOfWeek &&& ((1 <<< dayOfWeek) % 256) = 0 then false
  else true

/-- The scan guard of the checkAlarms loop: the loop skips disabled or
permanently disabled records and fires on shouldAlarmTrigger. -/
def eligMatch (a : AlarmData) (hour minute dayOfWeek : Nat) : Bool :=
  a.enabled && !a.permanentlyDisabled && shouldAlarmTrigger a hour minute dayOfWeek

/-- First index (and record) in list order on which the checkAlarms scan
fires; none if the loop falls through.  This is the for loop with break. -/
def findFirstTrigger (alarms : List AlarmData) (hour minute dayOfWeek : Nat) :
    Option (Nat × AlarmData) :=
  match alarms with
  | [] => none
  | a :: rest =>
    if eligMatch a hour minute dayOfWeek then some (0, a)
    else (findFirstTrigger rest hour minute dayOfWeek).map (fun p => (p.1 + 1, p.2))

/-- AlarmManager::checkAlarms.  Returns the new state and the trace of
saveToNVS / callback effects in the order the C code performs them.  The
update of _lastCheckedMinute, performed by the C code right after the dedup
test, is inlined into each result state. -/
def checkAlarms (st : EngineState) (hour minute dayOfWeek : Nat) :
    EngineState × List AlarmEvent :=
  if minute = st.lastCheckedMinute then (st, [])
  else if st.snoozed = true ∧ hour = st.snoozeHour ∧ minute = st.snoozeMinute then
    ({ st with lastCheckedMinute := minute, alarmRinging := true, snoozed := false },
     [AlarmEvent.ring st.ringingAlarmId])
  else
    match findFirstTrigger st.alarms hour minute dayOfWeek with
    | none => ({ st with lastCheckedMinute := minute }, [])
    | some (i, a) =>
      if a.daysOfWeek = 0 then
        ({ st with lastCheckedMinute := minute,
                   alarms := st.alarms.set i
                     { a with enabled := false, permanentlyDisabled := true },
                   alarmRinging := true, ringingAlarmId := a.id },
         [AlarmEvent.persist (st.alarms.set i
            { a with enabled := false, permanentlyDisabled := true }),
          AlarmEvent.ring a.id])
      else
        ({ st with lastCheckedMinute := minute,
                   alarmRinging := true, ringingAlarmId := a.id },
         [AlarmEvent.ring a.id])

/-- SNOOZE_MINUTES constant of AlarmManager. -/
def SNOOZE_MINUTES : Nat := 5

/-- AlarmManager::snoozeAlarm.  The current wall-clock time is an input
(the C code reads it from the external clock via time / localtime_r). -/
def snoozeAlarm (st : EngineState) (nowHour nowMinute : Nat) : EngineState :=
  if st.alarmRinging = false then st
  else
    let m := nowMinute + SNOOZE_MINUTES
    if m ≥ 60 then
      let h := nowHour + 1
      let h2 := if h ≥ 24 then 0 else h
      { st with alarmRinging := false, snoozed := true,
                snoozeHour := h2, snoozeMinute := m - 60 }
    else
      { st with alarmRinging := false, snoozed := true,
                snoozeHour := nowHour, snoozeMinute := m }

/-- AlarmManager::dismissAlarm. -/
def dismissAlarm (st : EngineState) : EngineState :=
  { st with alarmRinging := false, snoozed := false, ringingAlarmId := 255 }

/-- AlarmManager::getRingingAlarmSound. -/
def getRingingAlarmSound (st : EngineState) : String :=
  if st.alarmRinging = false then ""
  else
    match st.alarms.find? (fun a => a.id == st.ringingAlarmId) with
    | some a => a.sound
    | none => "tone1"

/-- Run a sequence of checkAlarms calls (hour, minute, dayOfWeek triples),
concatenating the event traces. -/
def runChecks (st : EngineState) : List (Nat × Nat × Nat) → EngineState × List AlarmEvent
  | [] => (st, [])
  | (h, m, d) :: rest =>
    let r1 := checkAlarms st h m d
    let r2 := runChecks r1.1 rest
    (r2.1, r1.2 ++ r2.2)

/-! ## The persisted-record loader (AlarmManager::loadFromNVS)

The loader reads one comma-delimited string per alarm slot and decodes it
with Arduino String primitives: indexOf(char, from), substring, toInt.
These primitives are embedded below on List Char. -/

/-- Arduino String::indexOf(ch, fromIndex): index of the first occurrence of
ch at position at least fromIndex, or -1. -/
def strIndexOfFrom (s : List Char) (c : Char) (fromIdx : Nat) : Int :=
  match (s.drop fromIdx).findIdx? (fun x => x == c) with
  | some i => ((fromIdx + i : Nat) : Int)
  | none => -1

/-- The idiom data.indexOf(comma, idx + 1) of the loader: the from position
is the previous result plus one (note that a previous result of -1 restarts
the search at position 0). -/
def nextComma (s : List Char) (prev : Int) : Int :=
  strIndexOfFrom s ',' (prev + 1).toNat

/-- Arduino String::substring(from, to): characters in positions
from (inclusive) to to (exclusive). -/
def subStr (s : List Char) (a b : Int) : List Char :=
  (s.take b.toNat).drop a.toNat

/-- Arduino String::substring(from): characters from position from on. -/
def subStrFrom (s : List Char) (a : Int) : List Char :=
  s.drop a.toNat

/-- Accumulate the value of a leading run of decimal digits. -/
def digitsVal : List Char → Nat → Nat
  | [], acc => acc
  | c :: cs, acc => if c.isDigit then digitsVal cs (acc * 10 + (c.toNat - 48)) else acc

/-- Arduino String::toInt (atol): skip leading spaces, optional sign, then
the leading run of digits; 0 when no digits are present. -/
def atoiChars (s : List Char) : Int :=
  let t := s.dropWhile (fun c => c == ' ')
  match t with
  | '-' :: rest => - ((digitsVal rest 0 : Nat) : Int)
  | '+' :: rest => ((digitsVal rest 0 : Nat) : Int)
  | _ => ((digitsVal t 0 : Nat) : Int)

/-- Assignment of a C long to a uint8_t field: truncation to 8 bits. -/
def toU8 (v : Int) : Nat := (v % 256).toNat

/-- The per-record decoder inside AlarmManager::loadFromNVS, on the
character list of the stored string: splits on commas (idx1 .. idx8),
requires the first four separators, then selects the legacy format by which
later separators are present. -/
def parseAlarmFields (id : Nat) (s : List Char) : Option AlarmData :=
  if s.length = 0 then none
  else
    let idx1 := strIndexOfFrom s ',' 0
    let idx2 := nextComma s idx1
    let idx3 := nextComma s idx2
    let idx4 := nextComma s idx3
    let idx5 := nextComma s idx4
    let idx6 := nextComma s idx5
    let idx7 := nextComma s idx6
    let idx8 := nextComma s idx7
    if idx1 > 0 ∧ idx2 > 0 ∧ idx3 > 0 ∧ idx4 > 0 then
      let hour := toU8 (atoiChars (subStr s 0 idx1))
      let minute := toU8 (atoiChars (subStr s (idx1 + 1) idx2))
      let daysOfWeek := toU8 (atoiChars (subStr s (idx2 + 1) idx3))
      let enabled := atoiChars (subStr s (idx3 + 1) idx4) == 1
      if idx5 > 0 ∧ idx6 > 0 ∧ idx7 > 0 ∧ idx8 > 0 then
        some { id := id, hour := hour, minute := minute, daysOfWeek := daysOfWeek,
               enabled := enabled,
               sound := String.mk (subStr s (idx4 + 1) idx5),
               label := String.mk (subStr s (idx5 + 1) idx6),
               snoozeEnabled := atoiChars (subStr s (idx6 + 1) idx7) == 1,
               permanentlyDisabled := atoiChars (subStr s (idx7 + 1) idx8) == 1,
               bottomRowLabel := String.mk (subStrFrom s (idx8 + 1)) }
      else if idx5 > 0 ∧ idx6 > 0 ∧ idx7 > 0 then
        some { id := id, hour := hour, minute := minute, daysOfWeek := daysOfWeek,
               enabled := enabled,
               sound := String.mk (subStr s (idx4 + 1) idx5),
               label := String.mk (subStr s (idx5 + 1) idx6),
               snoozeEnabled := atoiChars (subStr s (idx6 + 1) idx7) == 1,
               permanentlyDisabled := atoiChars (subStrFrom s (idx7 + 1)) == 1,
               bottomRowLabel := "" }
      else if idx5 > 0 ∧ idx6 > 0 then
        some { id := id, hour := hour, minute := minute, daysOfWeek := daysOfWeek,
               enabled := enabled,
               sound := String.mk (subStr s (idx4 + 1) idx5),
               label := String.mk (subStr s (idx5 + 1) idx6),
               snoozeEnabled := atoiChars (subStrFrom s (idx6 + 1)) == 1,
               permanentlyDisabled := false,
               bottomRowLabel := "" }
      else
        some { id := id, hour := hour, minute := minute, daysOfWeek := daysOfWeek,
               enabled := enabled,
               sound := String.mk (subStrFrom s (idx4 + 1)),
               label := "Alarm",
               snoozeEnabled := true,
               permanentlyDisabled := false,
               bottomRowLabel := "" }
    else none

/-- The per-record decoder on the stored string (data.length() check plus
comma splitting). -/
def parseAlarmRecord (id : Nat) (data : String) : Option AlarmData :=
  parseAlarmFields id data.data

/-- MAX_ALARMS from config.h. -/
def MAX_ALARMS : Nat := 10

/-- AlarmManager::loadFromNVS over a durable store modelled as a partial map
from slot id to the stored string (none models a missing key). -/
def loadFromNVS (store : Nat → Option String) : List AlarmData :=
  (List.range MAX_ALARMS).filterMap (fun id => (store id).bind (parseAlarmRecord id))

/-- Join fields with comma separators, as saveToNVS writes them. -/
def joinFields : List (List Char) → List Char
  | [] => []
  | [f] => f
  | f :: rest => f ++ ',' :: joinFields rest

/-! ## The audio playback coordinator (AudioTest, src/audio_test.cpp)

The coordinator is embedded as a pure state machine.  The I2S hardware, the
SPIFFS file store and the MP3/WAV generator objects are external: the file
store and the generator begin results are supplied through an environment,
and i2s_write with portMAX_DELAY is modelled as writing the full chunk.
The mutex is modelled as always acquired (single caller at a time); the
dedicated-task interleavings themselves are outside the embedding. -/

/-- The _currentSoundType field (SOUND_TYPE_NONE / TONE / FILE / PCM). -/
inductive SoundType where
  | none
  | tone
  | file
  | pcm
deriving Repr, DecidableEq

/-- External collaborators of the coordinator: SPIFFS existence check and
the decoder-begin outcomes for the two container types. -/
structure AudioEnv where
  spiffsExists : String → Bool
  mp3BeginOk : String → Bool
  wavBeginOk : String → Bool

/-- Coordinator state: the AudioTest fields together with the module-scope
decoder handles (modelled as presence flags; the PCM buffer pointer is
borrowed, so only its byte size is part of the state). -/
structure AudioState where
  initialized : Bool
  volume : Nat
  volumeChanged : Bool
  currentSoundType : SoundType
  loopFile : Bool
  currentFilePath : String
  audioOutInstalled : Bool
  fileSourceOpen : Bool
  mp3Active : Bool
  wavActive : Bool
  pcmSizeBytes : Nat
  pcmPosition : Nat
  pcmSampleRate : Nat
  pcmBits : Nat
  pcmChannels : Nat
  pcmPlaying : Bool
deriving Repr, DecidableEq

/-- State after AudioTest::begin() succeeds (volume as loaded from NVS). -/
def initialAudio (vol : Nat) : AudioState :=
  { initialized := true
    volume := vol
    volumeChanged := false
    currentSoundType := SoundType.none
    loopFile := false
    currentFilePath := ""
    audioOutInstalled := false
    fileSourceOpen := false
    mp3Active := false
    wavActive := false
    pcmSizeBytes := 0
    pcmPosition := 0
    pcmSampleRate := 44100
    pcmBits := 16
    pcmChannels := 2
    pcmPlaying := false }

/-- AudioTest::stopFile: tears down generators, file source and the
AudioOutputI2S object, reinstalls the tone I2S driver, and resets the file
fields; a no-op when not in file mode. -/
def stopFile (st : AudioState) : AudioState :=
  if st.currentSoundType = SoundType.file then
    { st with mp3Active := false, wavActive := false, fileSourceOpen := false,
              audioOutInstalled := false,
              currentSoundType := SoundType.none,
              loopFile := false, currentFilePath := "" }
  else st

/-- The /spiffs prefix strip at the top of playFile. -/
def stripSpiffs (path : String) : String :=
  if path.startsWith "/spiffs" then path.drop 7 else path

/-- The conditional stopFile() call at the top of playFile and
playPCMBuffer: stop any existing file playback first. -/
def stopFileIfFile (st : AudioState) : AudioState :=
  if st.currentSoundType = SoundType.file then stopFile st else st

/-- The lazy construction of the AudioOutputI2S object in playFile: when
audioOut is null, the tone I2S driver is uninstalled and the file output
object created. -/
def ensureAudioOut (st : AudioState) : AudioState :=
  if st.audioOutInstalled = false then { st with audioOutInstalled := true } else st

/-- AudioTest::playFile.  Returns the boolean result and the new state.
The state right before the SPIFFS existence check is
ensureAudioOut (stopFileIfFile st), written out in each outcome. -/
def playFile (env : AudioEnv) (st : AudioState) (path : String) (loopPlay : Bool) :
    Bool × AudioState :=
  if st.initialized = false then (false, st)
  else if env.spiffsExists (stripSpiffs path) = false then
    (false, ensureAudioOut (stopFileIfFile st))
  else if path.toLower.endsWith ".mp3" then
    if env.mp3BeginOk (stripSpiffs path) = false then
      (false, { ensureAudioOut (stopFileIfFile st) with
                currentFilePath := stripSpiffs path,
                fileSourceOpen := false, mp3Active := false })
    else
      (true, { ensureAudioOut (stopFileIfFile st) with
               currentFilePath := stripSpiffs path, fileSourceOpen := true,
               mp3Active := true, loopFile := loopPlay,
               currentSoundType := SoundType.file })
  else if path.toLower.endsWith ".wav" then
    if env.wavBeginOk (stripSpiffs path) = false then
      (false, { ensureAudioOut (stopFileIfFile st) with
                currentFilePath := stripSpiffs path,
                fileSourceOpen := false, wavActive := false })
    else
      (true, { ensureAudioOut (stopFileIfFile st) with
               currentFilePath := stripSpiffs path, fileSourceOpen := true,
               wavActive := true, loopFile := loopPlay,
               currentSoundType := SoundType.file })
  else
    (false, { ensureAudioOut (stopFileIfFile st) with
              currentFilePath := stripSpiffs path, fileSourceOpen := false })

/-- The conditional PCM stop inside playPCMBuffer. -/
def stopPcmIfPcm (st : AudioState) : AudioState :=
  if st.currentSoundType = SoundType.pcm then { st with pcmPlaying := false } else st

/-- AudioTest::playPCMBuffer.  The caller-owned buffer itself is not copied;
only its size and the format parameters enter the state. -/
def playPCMBuffer (st : AudioState) (sizeBytes sampleRate bits channels : Nat) :
    Bool × AudioState :=
  if st.initialized = false then (false, st)
  else if sizeBytes = 0 then (false, st)
  else if bits ≠ 8 ∧ bits ≠ 16 then (false, st)
  else if channels ≠ 1 ∧ channels ≠ 2 then (false, st)
  else
    (true, { stopPcmIfPcm (stopFileIfFile st) with
             pcmSizeBytes := sizeBytes, pcmPosition := 0,
             pcmSampleRate := sampleRate, pcmBits := bits,
             pcmChannels := channels, pcmPlaying := true,
             currentSoundType := SoundType.pcm })

/-- CHUNK_SIZE of the PCM branch of AudioTest::loop. -/
def CHUNK_SIZE : Nat := 512

/-- The volume-change application at the top of AudioTest::loop. -/
def applyVolume (st : AudioState) : AudioState :=
  if st.volumeChanged = true ∧ st.audioOutInstalled = true
  then { st with volumeChanged := false } else st

/-- The PCM branch of AudioTest::loop: advance the cursor by one chunk
(all three format paths advance by the bytes of the chunk written, and
i2s_write with portMAX_DELAY completes the write), or flip to idle on the
call that finds the cursor at the end of the buffer. -/
def audioLoopPCM (st : AudioState) : AudioState :=
  if st.currentSoundType = SoundType.pcm ∧ st.pcmPlaying = true then
    if st.pcmSizeBytes - st.pcmPosition > 0 then
      { st with pcmPosition := st.pcmPosition +
          (if st.pcmSizeBytes - st.pcmPosition < CHUNK_SIZE
           then st.pcmSizeBytes - st.pcmPosition else CHUNK_SIZE) }
    else
      { st with pcmPlaying := false, currentSoundType := SoundType.none }
  else st

/-- AudioTest::loop.  Applies a pending volume change, then handles PCM
playback.  The streaming-file branch drives the external decoder object and
changes no coordinator state within this embedding except through stopFile,
which is triggered only by decoder end-of-file; no claim depends on it, so
the file branch is the identity here. -/
def audioLoop (st : AudioState) : AudioState :=
  audioLoopPCM (applyVolume st)

/-! ## Concrete states used by the claim theorems -/

/-- Alarm ids passed to the ring callback, in order, within an event trace. -/
def ringsOf : List AlarmEvent → List Nat
  | [] => []
  | AlarmEvent.ring i :: rest => i :: ringsOf rest
  | AlarmEvent.persist _ :: rest => ringsOf rest

/-- Every record carrying the given id in the state is permanently
disabled. -/
def permDisabledFor (st : EngineState) (rid : Nat) : Prop :=
  ∀ b ∈ st.alarms, b.id = rid → b.permanentlyDisabled = true

def c1AlarmX : AlarmData := ⟨0, 7, 0, 2, "tone1", true, "X", true, false, ""⟩

def c1AlarmY : AlarmData := ⟨1, 7, 3, 0, "tone2", true, "Y", true, false, ""⟩

def c1Start : EngineState :=
  { alarms := [c1AlarmX, c1AlarmY], alarmRinging := false, ringingAlarmId := 255,
    lastCheckedMinute := 255, snoozed := false, snoozeHour := 0, snoozeMinute := 0 }

/-- State after the weekly alarm X fires at 07:00 Monday and is snoozed at
07:00 (snooze target 07:05). -/
def c1AfterSnooze : EngineState := snoozeAlarm (checkAlarms c1Start 7 0 1).1 7 0

/-- The one-shot alarm Y (id 1) fires at 07:03 while the snooze from X is
still pending. -/
def c1FireOneShot : EngineState × List AlarmEvent := checkAlarms c1AfterSnooze 7 3 1

/-- The next checkAlarms call at the stale snooze target 07:05. -/
def c1Later : EngineState × List AlarmEvent := checkAlarms c1FireOneShot.1 7 5 1

def c1W : AlarmData := ⟨3, 6, 45, 0, "tone1", true, "Once", true, false, ""⟩

def c1WState : EngineState :=
  { alarms := [c1W], alarmRinging := false, ringingAlarmId := 255,
    lastCheckedMinute := 255, snoozed := false, snoozeHour := 0, snoozeMinute := 0 }

/-- State after starting a 512-byte 16-bit stereo PCM playback on a freshly
initialized coordinator. -/
def c6Start : AudioState := (playPCMBuffer (initialAudio 70) 512 44100 16 2).2

/-- An audio environment whose file store is empty and whose decoders would
succeed. -/
def c7Env : AudioEnv :=
  { spiffsExists := fun _ => false
    mp3BeginOk := fun _ => true
    wavBeginOk := fun _ => true }

/-- A coordinator in the middle of a PCM playback. -/
def c7PcmState : AudioState := (playPCMBuffer (initialAudio 70) 512 44100 16 2).2

/-! ## Helper lemmas about the alarm engine -/

theorem checkAlarms_lastCheckedMinute (st : EngineState) (h m d : Nat) :
    (checkAlarms st h m d).1.lastCheckedMinute = m := by
  unfold checkAlarms
  split
  · next heq => exact heq.symm
  · split
    · rfl
    · rcases hf : findFirstTrigger st.alarms h m d with _ | ⟨i, a⟩
      · simp [hf]
      · simp only [hf]
        split <;> rfl

theorem checkAlarms_noop (st : EngineState) (h m d : Nat)
    (hm : st.lastCheckedMinute = m) : checkAlarms st h m d = (st, []) := by
  unfold checkAlarms
  rw [if_pos hm.symm]

theorem findFirstTrigger_sound (h m d : Nat) :
    ∀ (l : List AlarmData) (i : Nat) (a : AlarmData),
      findFirstTrigger l h m d = some (i, a) →
      l[i]? = some a ∧ eligMatch a h m d = true ∧
      ∀ j, j < i → ∀ b, l[j]? = some b → eligMatch b h m d = false := by
  intro l
  induction l with
  | nil => intro i a hfa; simp [findFirstTrigger] at hfa
  | cons x xs ih =>
    intro i a hfa
    rw [findFirstTrigger] at hfa
    by_cases hx : eligMatch x h m d = true
    · rw [if_pos hx] at hfa
      simp only [Option.some.injEq, Prod.mk.injEq] at hfa
      obtain ⟨hi, ha⟩ := hfa
      subst hi; subst ha
      exact ⟨by simp, hx, fun j hj b hb => absurd hj (Nat.not_lt_zero j)⟩
    · rw [if_neg hx] at hfa
      cases hrec : findFirstTrigger xs h m d with
      | none => rw [hrec] at hfa; simp at hfa
      | some p =>
        obtain ⟨i0, a0⟩ := p
        rw [hrec] at hfa
        simp only [Option.map_some', Option.some.injEq, Prod.mk.injEq] at hfa
        obtain ⟨hi, ha⟩ := hfa
        subst ha
        obtain ⟨hg, he, hfst⟩ := ih i0 a0 hrec
        subst hi
        refine ⟨by simpa using hg, he, ?_⟩
        intro j hj b hb
        cases j with
        | zero =>
          simp only [List.getElem?_cons_zero, Option.some.injEq] at hb
          subst hb
          exact Bool.not_eq_true _ ▸ Bool.of_not_eq_true hx
        | succ j0 =>
          exact hfst j0 (by omega) b (by simpa using hb)

theorem findFirstTrigger_complete (h m d : Nat) :
    ∀ (l : List AlarmData) (i : Nat) (a : AlarmData),
      l[i]? = some a → eligMatch a h m d = true →
      (∀ j, j < i → ∀ b, l[j]? = some b → eligMatch b h m d = false) →
      findFirstTrigger l h m d = some (i, a) := by
  intro l
  induction l with
  | nil => intro i a hget; simp at hget
  | cons x xs ih =>
    intro i a hget he hfirst
    cases i with
    | zero =>
      simp only [List.getElem?_cons_zero, Option.some.injEq] at hget
      subst hget
      rw [findFirstTrigger, if_pos he]
    | succ i0 =>
      have hx : eligMatch x h m d = false :=
        hfirst 0 (Nat.succ_pos i0) x (by simp)
      rw [findFirstTrigger, if_neg (by simp [hx]),
          ih i0 a (by simpa using hget) he
            (fun j hj b hb => hfirst (j + 1) (by omega) b (by simpa using hb))]
      rfl

/-- Evaluation of checkAlarms when the dedup and snooze guards fall through
and the scan fires record a at index i. -/
theorem checkAlarms_scan_fire (st : EngineState) (h m d i : Nat) (a : AlarmData)
    (hdedup : m ≠ st.lastCheckedMinute)
    (hsnooze : ¬(st.snoozed = true ∧ h = st.snoozeHour ∧ m = st.snoozeMinute))
    (hfft : findFirstTrigger st.alarms h m d = some (i, a)) :
    checkAlarms st h m d =
      if a.daysOfWeek = 0 then
        ({ st with lastCheckedMinute := m,
                   alarms := st.alarms.set i
                     { a with enabled := false, permanentlyDisabled := true },
                   alarmRinging := true, ringingAlarmId := a.id },
         [AlarmEvent.persist (st.alarms.set i
            { a with enabled := false, permanentlyDisabled := true }),
          AlarmEvent.ring a.id])
      else
        ({ st with lastCheckedMinute := m,
                   alarmRinging := true, ringingAlarmId := a.id },
         [AlarmEvent.ring a.id]) := by
  unfold checkAlarms
  rw [if_neg hdedup, if_neg hsnooze]
  cases hx : findFirstTrigger st.alarms h m d with
  | none => rw [hfft] at hx; cases hx
  | some p =>
    rw [hfft] at hx
    injection hx with hx2
    subst hx2
    rfl

/-- Evaluation of checkAlarms when the dedup and snooze guards fall through
and the scan finds no eligible match. -/
theorem checkAlarms_scan_none (st : EngineState) (h m d : Nat)
    (hdedup : m ≠ st.lastCheckedMinute)
    (hsnooze : ¬(st.snoozed = true ∧ h = st.snoozeHour ∧ m = st.snoozeMinute))
    (hfft : findFirstTrigger st.alarms h m d = none) :
    checkAlarms st h m d = ({ st with lastCheckedMinute := m }, []) := by
  unfold checkAlarms
  rw [if_neg hdedup, if_neg hsnooze]
  cases hx : findFirstTrigger st.alarms h m d with
  | none => rfl
  | some p => rw [hfft] at hx; cases hx

/-! ## Claim theorems -/

/-- C3: when several enabled, non-permanently-disabled alarms match the same
hour, minute and day, checkAlarms fires only the first match in list order
and invokes the callback exactly once in that tick: the trace carries
exactly one ring event, with the first matching record as its id, and the
ringing id is set to it. -/
theorem checkAlarms_first_match_only (st : EngineState) (h m d i : Nat)
    (a : AlarmData)
    (hdedup : m ≠ st.lastCheckedMinute)
    (hsnooze : ¬(st.snoozed = true ∧ h = st.snoozeHour ∧ m = st.snoozeMinute))
    (hget : st.alarms[i]? = some a)
    (he : eligMatch a h m d = true)
    (hfirst : ∀ j, j < i → ∀ b, st.alarms[j]? = some b →
      eligMatch b h m d = false) :
    (checkAlarms st h m d).1.ringingAlarmId = a.id ∧
    (checkAlarms st h m d).1.alarmRinging = true ∧
    ringsOf (checkAlarms st h m d).2 = [a.id] := by
  rw [checkAlarms_scan_fire st h m d i a hdedup hsnooze
      (findFirstTrigger_complete h m d st.alarms i a hget he hfirst)]
  split <;> exact ⟨rfl, rfl, rfl⟩

/-- Witness for C3, the scenario of the spec: alarms with ids 0 and 1 both
set for 07:00 Monday in that insertion order, both enabled; only id 0 rings
(a single ring event with id 0). -/
theorem checkAlarms_first_match_only_witness :
    (checkAlarms
      { alarms := [⟨0, 7, 0, 2, "tone1", true, "A", true, false, ""⟩,
                   ⟨1, 7, 0, 2, "tone2", true, "B", true, false, ""⟩],
        alarmRinging := false, ringingAlarmId := 255, lastCheckedMinute := 255,
        snoozed := false, snoozeHour := 0, snoozeMinute := 0 } 7 0 1).1.ringingAlarmId = 0 ∧
    ringsOf (checkAlarms
      { alarms := [⟨0, 7, 0, 2, "tone1", true, "A", true, false, ""⟩,
                   ⟨1, 7, 0, 2, "tone2", true, "B", true, false, ""⟩],
        alarmRinging := false, ringingAlarmId := 255, lastCheckedMinute := 255,
        snoozed := false, snoozeHour := 0, snoozeMinute := 0 } 7 0 1).2 = [0] := by
  have hres := checkAlarms_first_match_only
    { alarms := [⟨0, 7, 0, 2, "tone1", true, "A", true, false, ""⟩,
                 ⟨1, 7, 0, 2, "tone2", true, "B", true, false, ""⟩],
      alarmRinging := false, ringingAlarmId := 255, lastCheckedMinute := 255,
      snoozed := false, snoozeHour := 0, snoozeMinute := 0 } 7 0 1 0
    ⟨0, 7, 0, 2, "tone1", true, "A", true, false, ""⟩
    (by norm_num) (by simp) (by simp) (by decide)
    (fun j hj b hb => absurd hj (Nat.not_lt_zero j))
  exact ⟨hres.1, hres.2.2⟩

/-- C4: for an enabled, non-permanently-disabled alarm with a nonzero
daysOfWeek bitmask, the trigger test succeeds exactly when the hour and
minute both match and bit dayOfWeek (bit 0 is Sunday) is set in the mask;
consequently the checkAlarms scan can fire such an alarm only at a matching
time on a day whose bit is set. -/
theorem shouldAlarmTrigger_weekly_iff (a : AlarmData) (h m d : Nat)
    (hd : d < 8) (hdays : a.daysOfWeek ≠ 0) :
    (shouldAlarmTrigger a h m d = true ↔
      a.hour = h ∧ a.minute = m ∧ a.daysOfWeek.testBit d = true) ∧
    (∀ (l : List AlarmData) (i : Nat), findFirstTrigger l h m d = some (i, a) →
      a.hour = h ∧ a.minute = m ∧ a.daysOfWeek.testBit d = true) := by
  have hp : (1 <<< d) % 256 = 2 ^ d := by
    rw [Nat.shiftLeft_eq, one_mul]
    exact Nat.mod_eq_of_lt (by
      calc (2 : Nat) ^ d < 2 ^ 8 := Nat.pow_lt_pow_right (by norm_num) hd
        _ = 256 := by norm_num)
  have hand : (a.daysOfWeek &&& 2 ^ d = 0) ↔ a.daysOfWeek.testBit d = false := by
    rw [Nat.and_two_pow]
    cases htb : a.daysOfWeek.testBit d <;>
      simp [htb, (Nat.two_pow_pos d).ne']
  have hiff : shouldAlarmTrigger a h m d = true ↔
      a.hour = h ∧ a.minute = m ∧ a.daysOfWeek.testBit d = true := by
    unfold shouldAlarmTrigger
    rw [hp]
    by_cases h1 : a.hour ≠ h ∨ a.minute ≠ m
    · rw [if_pos h1]
      simp only [Bool.false_eq_true, false_iff]
      rintro ⟨hh, hmm, -⟩
      rcases h1 with h1 | h1
      · exact h1 hh
      · exact h1 hmm
    · rw [if_neg h1, if_neg hdays]
      push_neg at h1
      by_cases h3 : a.daysOfWeek &&& 2 ^ d = 0
      · rw [if_pos h3]
        simp only [Bool.false_eq_true, false_iff]
        rintro ⟨-, -, htb⟩
        rw [hand.mp h3] at htb
        cases htb
      · rw [if_neg h3]
        have htb : a.daysOfWeek.testBit d = true := by
          cases htb2 : a.daysOfWeek.testBit d
          · exact absurd (hand.mpr htb2) h3
          · rfl
        simp [h1.1, h1.2, htb]
  refine ⟨hiff, ?_⟩
  intro l i hf
  obtain ⟨_, he, _⟩ := findFirstTrigger_sound h m d l i a hf
  have hs : shouldAlarmTrigger a h m d = true := by
    simp only [eligMatch, Bool.and_eq_true] at he
    exact he.2
  exact hiff.mp hs

/-- Witness for C4 at a concrete alarm: Monday-only mask 0x02 triggers at
the matching time on Monday (day 1). -/
theorem shouldAlarmTrigger_weekly_iff_witness :
    shouldAlarmTrigger ⟨0, 7, 0, 2, "tone1", true, "A", true, false, ""⟩ 7 0 1 = true := by
  exact (shouldAlarmTrigger_weekly_iff
    ⟨0, 7, 0, 2, "tone1", true, "A", true, false, ""⟩ 7 0 1
    (by norm_num) (by norm_num)).1.mpr ⟨rfl, rfl, by decide⟩

/-- C5: checkAlarms called twice with the same minute value makes the second
call a no-op: the state is unchanged and no events (no scan effect, no
callback) are produced, because minute equals the stored lastCheckedMinute
dedup key after the first call. -/
theorem checkAlarms_dedup_idempotent (st : EngineState) (h m d h2 d2 : Nat) :
    checkAlarms (checkAlarms st h m d).1 h2 m d2 = ((checkAlarms st h m d).1, []) :=
  checkAlarms_noop _ h2 m d2 (checkAlarms_lastCheckedMinute st h m d)

theorem checkAlarms_no_ring_of_perm (st : EngineState) (rid h m d : Nat)
    (hperm : permDisabledFor st rid) (hsn : st.snoozed = false) :
    permDisabledFor (checkAlarms st h m d).1 rid ∧
    (checkAlarms st h m d).1.snoozed = false ∧
    AlarmEvent.ring rid ∉ (checkAlarms st h m d).2 := by
  by_cases hded : m = st.lastCheckedMinute
  · rw [checkAlarms_noop st h m d hded.symm]
    exact ⟨hperm, hsn, by simp⟩
  · have hsnooze : ¬(st.snoozed = true ∧ h = st.snoozeHour ∧ m = st.snoozeMinute) := by
      rintro ⟨hs, -, -⟩
      rw [hsn] at hs
      cases hs
    cases hfft : findFirstTrigger st.alarms h m d with
    | none =>
      rw [checkAlarms_scan_none st h m d hded hsnooze hfft]
      exact ⟨hperm, hsn, by simp⟩
    | some p =>
      obtain ⟨i, a⟩ := p
      obtain ⟨hget, he, -⟩ := findFirstTrigger_sound h m d st.alarms i a hfft
      have hane : a.id ≠ rid := by
        intro hid
        have hmem : a ∈ st.alarms := List.mem_iff_getElem?.mpr ⟨i, hget⟩
        have := hperm a hmem hid
        simp [eligMatch, this] at he
      rw [checkAlarms_scan_fire st h m d i a hded hsnooze hfft]
      split
      · refine ⟨?_, hsn, by simp [Ne.symm hane]⟩
        intro b hb hid
        rcases List.mem_or_eq_of_mem_set hb with hb2 | rfl
        · exact hperm b hb2 hid
        · rfl
      · exact ⟨hperm, hsn, by simp [Ne.symm hane]⟩

theorem runChecks_no_ring_of_perm (rid : Nat) :
    ∀ (trace : List (Nat × Nat × Nat)) (st : EngineState),
      permDisabledFor st rid → st.snoozed = false →
      AlarmEvent.ring rid ∉ (runChecks st trace).2 := by
  intro trace
  induction trace with
  | nil => intro st _ _; simp [runChecks]
  | cons t rest ih =>
    intro st hperm hsn
    obtain ⟨h, m, d⟩ := t
    obtain ⟨hp2, hs2, hnr⟩ := checkAlarms_no_ring_of_perm st rid h m d hperm hsn
    simp only [runChecks, List.mem_append]
    rintro (hmem | hmem)
    · exact hnr hmem
    · exact ih _ hp2 hs2 hmem

/-- Counterexample to C1 as stated: the one-shot alarm with id 1 fires at
07:03 and is permanently disabled, yet a later checkAlarms call (07:05, the
snooze target left over from a different alarm) invokes the ring callback
with id 1 again, because the snooze re-trigger path rings whatever id is
stored in ringingAlarmId, which the one-shot firing overwrote. -/
theorem oneShot_refire_via_snooze_counterexample :
    c1AlarmY.daysOfWeek = 0 ∧
    ringsOf c1FireOneShot.2 = [1] ∧
    c1FireOneShot.1.alarms =
      [c1AlarmX, { c1AlarmY with enabled := false, permanentlyDisabled := true }] ∧
    ringsOf c1Later.2 = [1] := by
  exact ⟨rfl, rfl, rfl, rfl⟩

/-- C1 (amended): when the checkAlarms scan fires a one-shot record
(daysOfWeek 0) at index i, the record is left disabled and permanently
disabled, the updated list is persisted to durable storage before the ring
callback is invoked (the trace is exactly the persist followed by the
ring), and - provided no snooze was pending at that moment and no other
record shares the id - no later sequence of checkAlarms calls ever rings
that id again. -/
theorem oneShot_fire_spec (st : EngineState) (h m d i : Nat) (a : AlarmData)
    (hdedup : m ≠ st.lastCheckedMinute)
    (hnosnooze : st.snoozed = false)
    (hfft : findFirstTrigger st.alarms h m d = some (i, a))
    (hone : a.daysOfWeek = 0)
    (huniq : ∀ j b, st.alarms[j]? = some b → b.id = a.id → j = i) :
    (checkAlarms st h m d).1.alarms[i]? =
      some { a with enabled := false, permanentlyDisabled := true } ∧
    (checkAlarms st h m d).2 =
      [AlarmEvent.persist (checkAlarms st h m d).1.alarms, AlarmEvent.ring a.id] ∧
    (checkAlarms st h m d).1.snoozed = false ∧
    ∀ trace, AlarmEvent.ring a.id ∉ (runChecks (checkAlarms st h m d).1 trace).2 := by
  have hsnooze : ¬(st.snoozed = true ∧ h = st.snoozeHour ∧ m = st.snoozeMinute) := by
    rintro ⟨hs, -, -⟩
    rw [hnosnooze] at hs
    cases hs
  have heval := checkAlarms_scan_fire st h m d i a hdedup hsnooze hfft
  rw [if_pos hone] at heval
  obtain ⟨hget, -, -⟩ := findFirstTrigger_sound h m d st.alarms i a hfft
  have hlt : i < st.alarms.length := (List.getElem?_eq_some_iff.mp hget).1
  rw [heval]
  refine ⟨?_, rfl, ?_, ?_⟩
  · exact List.getElem?_set_self hlt
  · exact hnosnooze
  · intro trace
    apply runChecks_no_ring_of_perm a.id trace
    · intro b hb hid
      obtain ⟨j, hj⟩ := List.mem_iff_getElem?.mp hb
      by_cases hji : j = i
      · subst hji
        rw [List.getElem?_set_self hlt] at hj
        injection hj with hj2
        rw [hj2.symm]
      · rw [List.getElem?_set_ne (fun hh => hji hh.symm)] at hj
        exact absurd (huniq j b hj hid) hji
    · exact hnosnooze

/-- Witness for C1 (amended): the one-shot alarm id 3 set for 06:45 fires,
is persisted as permanently disabled before the ring, and a later call at
06:45 on another day does not ring it. -/
theorem oneShot_fire_spec_witness :
    (checkAlarms c1WState 6 45 2).1.alarms[0]? =
      some { c1W with enabled := false, permanentlyDisabled := true } ∧
    (checkAlarms c1WState 6 45 2).2 =
      [AlarmEvent.persist (checkAlarms c1WState 6 45 2).1.alarms,
       AlarmEvent.ring 3] ∧
    AlarmEvent.ring 3 ∉ (runChecks (checkAlarms c1WState 6 45 2).1 [(6, 45, 3)]).2 := by
  have hw := oneShot_fire_spec c1WState 6 45 2 0 c1W
    (by simp [c1WState]) rfl rfl rfl
    (by
      intro j b hj hb
      cases j with
      | zero => rfl
      | succ n => simp [c1WState] at hj)
  exact ⟨hw.1, hw.2.1, hw.2.2.2 [(6, 45, 3)]⟩

/-- C2: while ringing, snoozeAlarm clears the ringing flag, sets the snoozed
flag, and stores now plus 5 minutes as the target, carrying minute overflow
into the hour and wrapping hour 24 to 0; it is a no-op when not ringing; and
a checkAlarms call at the stored target (with a fresh minute) re-enters
ringing with the retained alarm id, emitting exactly that one ring event and
leaving the alarm list unscanned and unchanged. -/
theorem snoozeAlarm_spec (st : EngineState) (nh nm : Nat)
    (hh : nh < 24) (hm : nm < 60) :
    (st.alarmRinging = false → snoozeAlarm st nh nm = st) ∧
    (st.alarmRinging = true →
      (snoozeAlarm st nh nm).alarmRinging = false ∧
      (snoozeAlarm st nh nm).snoozed = true ∧
      (snoozeAlarm st nh nm).snoozeMinute = (nm + 5) % 60 ∧
      (snoozeAlarm st nh nm).snoozeHour = (if nm + 5 ≥ 60 then (nh + 1) % 24 else nh) ∧
      (snoozeAlarm st nh nm).ringingAlarmId = st.ringingAlarmId ∧
      (snoozeAlarm st nh nm).alarms = st.alarms) ∧
    (∀ st3 : EngineState, st3.snoozed = true →
      st3.lastCheckedMinute ≠ st3.snoozeMinute → ∀ d,
      checkAlarms st3 st3.snoozeHour st3.snoozeMinute d =
        ({ st3 with lastCheckedMinute := st3.snoozeMinute,
                    alarmRinging := true, snoozed := false },
         [AlarmEvent.ring st3.ringingAlarmId])) := by
  refine ⟨?_, ?_, ?_⟩
  · intro hr
    unfold snoozeAlarm
    rw [if_pos hr]
  · intro hr
    unfold snoozeAlarm
    rw [if_neg (by simp [hr])]
    dsimp only
    split
    · refine ⟨rfl, rfl, by dsimp only [SNOOZE_MINUTES] at *; omega,
        by dsimp only [SNOOZE_MINUTES] at *; split_ifs <;> omega, rfl, rfl⟩
    · refine ⟨rfl, rfl, by dsimp only [SNOOZE_MINUTES] at *; omega,
        by dsimp only [SNOOZE_MINUTES] at *; split_ifs; omega, rfl, rfl⟩
  · intro st3 hsn hld d
    unfold checkAlarms
    rw [if_neg (fun hc => hld hc.symm), if_pos ⟨hsn, rfl, rfl⟩]

/-- Witness for C2 at a concrete input: ringing at 23:59, snooze targets
00:04, and checkAlarms at 00:04 re-rings the retained id 7. -/
theorem snoozeAlarm_spec_witness :
    (snoozeAlarm ⟨[], true, 7, 59, false, 0, 0⟩ 23 59).snoozeHour = 0 ∧
    (snoozeAlarm ⟨[], true, 7, 59, false, 0, 0⟩ 23 59).snoozeMinute = 4 ∧
    checkAlarms ⟨[], false, 7, 59, true, 0, 4⟩ 0 4 0 =
      (⟨[], true, 7, 4, false, 0, 4⟩, [AlarmEvent.ring 7]) := by
  have h := snoozeAlarm_spec ⟨[], true, 7, 59, false, 0, 0⟩ 23 59
    (by norm_num) (by norm_num)
  refine ⟨?_, ?_, ?_⟩
  · have := (h.2.1 rfl).2.2.2.1
    simpa using this
  · have := (h.2.1 rfl).2.2.1
    simpa using this
  · exact h.2.2 ⟨[], false, 7, 59, true, 0, 4⟩ rfl (by norm_num) 0

/-- C9: checkAlarms does not test the ringing flag before scanning: from a
state that is ringing alarm 0 (not snoozed), a call at the minute of a
second enabled alarm fires that alarm, overwrites the ringing id with the
new id, and invokes the callback again, while the first alarm stays in the
list undismissed. -/
theorem checkAlarms_fires_while_ringing :
    ({ alarms := [⟨0, 7, 0, 2, "tone1", true, "A", true, false, ""⟩,
                  ⟨1, 7, 5, 2, "tone2", true, "B", true, false, ""⟩],
       alarmRinging := true, ringingAlarmId := 0, lastCheckedMinute := 0,
       snoozed := false, snoozeHour := 0, snoozeMinute := 0 } :
      EngineState).alarmRinging = true ∧
    checkAlarms
      { alarms := [⟨0, 7, 0, 2, "tone1", true, "A", true, false, ""⟩,
                   ⟨1, 7, 5, 2, "tone2", true, "B", true, false, ""⟩],
        alarmRinging := true, ringingAlarmId := 0, lastCheckedMinute := 0,
        snoozed := false, snoozeHour := 0, snoozeMinute := 0 } 7 5 1 =
      ({ alarms := [⟨0, 7, 0, 2, "tone1", true, "A", true, false, ""⟩,
                    ⟨1, 7, 5, 2, "tone2", true, "B", true, false, ""⟩],
         alarmRinging := true, ringingAlarmId := 1, lastCheckedMinute := 5,
         snoozed := false, snoozeHour := 0, snoozeMinute := 0 },
       [AlarmEvent.ring 1]) := by
  constructor
  · rfl
  · rfl

/-- C10: getRingingAlarmSound returns the empty string whenever not ringing;
while ringing it returns the sound of the alarm found for the ringing id,
and the tone1 fallback exactly when the ringing id is not in the list. -/
theorem getRingingAlarmSound_spec (st : EngineState) :
    (st.alarmRinging = false → getRingingAlarmSound st = "") ∧
    (∀ a, st.alarmRinging = true →
      st.alarms.find? (fun x => x.id == st.ringingAlarmId) = some a →
      getRingingAlarmSound st = a.sound) ∧
    (st.alarmRinging = true →
      (∀ a ∈ st.alarms, a.id ≠ st.ringingAlarmId) →
      getRingingAlarmSound st = "tone1") := by
  refine ⟨?_, ?_, ?_⟩
  · intro hr
    unfold getRingingAlarmSound
    rw [if_pos hr]
  · intro a hr hf
    unfold getRingingAlarmSound
    rw [if_neg (by simp [hr]), hf]
  · intro hr hnone
    have hf : st.alarms.find? (fun x => x.id == st.ringingAlarmId) = none := by
      rw [List.find?_eq_none]
      intro x hx
      simpa using hnone x hx
    unfold getRingingAlarmSound
    rw [if_neg (by simp [hr]), hf]

/-- Witness for C10: not ringing gives the empty string; ringing with an id
absent from the list gives the tone1 fallback. -/
theorem getRingingAlarmSound_spec_witness :
    getRingingAlarmSound ⟨[], false, 255, 255, false, 0, 0⟩ = "" ∧
    getRingingAlarmSound ⟨[], true, 5, 255, false, 0, 0⟩ = "tone1" := by
  constructor
  · exact (getRingingAlarmSound_spec ⟨[], false, 255, 255, false, 0, 0⟩).1 rfl
  · exact (getRingingAlarmSound_spec ⟨[], true, 5, 255, false, 0, 0⟩).2.2 rfl
      (by intro a ha; simp at ha)

/-! ## Lemmas about the audio coordinator -/

theorem audioLoop_pcm_step (s : AudioState)
    (htype : s.currentSoundType = SoundType.pcm)
    (hplay : s.pcmPlaying = true)
    (hvol : s.volumeChanged = false)
    (hlt : s.pcmPosition < s.pcmSizeBytes) :
    audioLoop s = { s with pcmPosition := s.pcmPosition + min (s.pcmSizeBytes - s.pcmPosition) CHUNK_SIZE } := by
  have hav : applyVolume s = s := by
    unfold applyVolume
    rw [if_neg (by simp [hvol])]
  unfold audioLoop
  rw [hav]
  unfold audioLoopPCM
  rw [if_pos ⟨htype, hplay⟩, if_pos (by omega)]
  have hbw : (if s.pcmSizeBytes - s.pcmPosition < CHUNK_SIZE
      then s.pcmSizeBytes - s.pcmPosition else CHUNK_SIZE) =
      min (s.pcmSizeBytes - s.pcmPosition) CHUNK_SIZE := by
    rw [Nat.min_def]
    split_ifs <;> omega
  rw [hbw]

theorem audioLoop_pcm_finish (s : AudioState)
    (htype : s.currentSoundType = SoundType.pcm)
    (hplay : s.pcmPlaying = true)
    (hvol : s.volumeChanged = false)
    (hge : s.pcmSizeBytes ≤ s.pcmPosition) :
    audioLoop s = { s with pcmPlaying := false,
                           currentSoundType := SoundType.none } := by
  have hav : applyVolume s = s := by
    unfold applyVolume
    rw [if_neg (by simp [hvol])]
  unfold audioLoop
  rw [hav]
  unfold audioLoopPCM
  rw [if_pos ⟨htype, hplay⟩, if_neg (by omega)]

theorem playPCMBuffer_start (st0 : AudioState) (N sr : Nat)
    (hinit : st0.initialized = true) (hN : N ≠ 0) :
    (playPCMBuffer st0 N sr 16 2).1 = true ∧
    (playPCMBuffer st0 N sr 16 2).2.currentSoundType = SoundType.pcm ∧
    (playPCMBuffer st0 N sr 16 2).2.pcmPlaying = true ∧
    (playPCMBuffer st0 N sr 16 2).2.pcmPosition = 0 ∧
    (playPCMBuffer st0 N sr 16 2).2.pcmSizeBytes = N ∧
    (playPCMBuffer st0 N sr 16 2).2.volumeChanged = st0.volumeChanged := by
  unfold playPCMBuffer
  rw [if_neg (by simp [hinit]), if_neg hN, if_neg (by norm_num),
      if_neg (by norm_num)]
  refine ⟨rfl, rfl, rfl, rfl, rfl, ?_⟩
  show (stopPcmIfPcm (stopFileIfFile st0)).volumeChanged = st0.volumeChanged
  unfold stopPcmIfPcm stopFileIfFile stopFile
  split_ifs <;> rfl

theorem audioLoop_iter_pcm (st : AudioState) (N : Nat)
    (hN : st.pcmSizeBytes = N)
    (htype : st.currentSoundType = SoundType.pcm)
    (hplay : st.pcmPlaying = true)
    (hpos : st.pcmPosition = 0)
    (hvol : st.volumeChanged = false) :
    ∀ k, CHUNK_SIZE * k < N + CHUNK_SIZE →
      audioLoop^[k] st = { st with pcmPosition := min N (CHUNK_SIZE * k) } := by
  intro k
  induction k with
  | zero =>
    intro _
    rw [Function.iterate_zero_apply, Nat.mul_zero, Nat.min_zero, ← hpos]
  | succ k ih =>
    intro hlt
    have hck : 512 * k < N := by
      simp only [CHUNK_SIZE] at hlt
      omega
    have hbound : CHUNK_SIZE * k < N + CHUNK_SIZE := by
      simp only [CHUNK_SIZE]
      omega
    have hstep := audioLoop_pcm_step
      { st with pcmPosition := min N (CHUNK_SIZE * k) } htype hplay hvol
      (by
        show min N (CHUNK_SIZE * k) < st.pcmSizeBytes
        rw [hN]
        simp only [CHUNK_SIZE]
        omega)
    rw [Function.iterate_succ_apply', ih hbound, hstep]
    show ({ st with pcmPosition := min N (CHUNK_SIZE * k) + min (st.pcmSizeBytes - min N (CHUNK_SIZE * k)) CHUNK_SIZE } : AudioState) =
      { st with pcmPosition := min N (CHUNK_SIZE * (k + 1)) }
    have harith : min N (CHUNK_SIZE * k) +
        min (st.pcmSizeBytes - min N (CHUNK_SIZE * k)) CHUNK_SIZE =
        min N (CHUNK_SIZE * (k + 1)) := by
      rw [hN]
      simp only [CHUNK_SIZE]
      omega
    rw [harith]

/-- C6 (amended): a PCM playback of N bytes (N positive) in 16-bit stereo
started by playPCMBuffer advances the cursor by one chunk per loop call;
after ceil(N / chunkSize) calls the whole buffer has been written (cursor
at N) but the coordinator is still in PreloadedPCM, and it is the next
call - call number ceil(N / chunkSize) + 1, which finds the cursor at the
end - that flips the coordinator back to idle. -/
theorem pcm_playback_finish_spec (st0 : AudioState) (N sr : Nat)
    (hinit : st0.initialized = true) (hN : 0 < N)
    (hvol : st0.volumeChanged = false) :
    (playPCMBuffer st0 N sr 16 2).1 = true ∧
    (audioLoop^[(N + CHUNK_SIZE - 1) / CHUNK_SIZE]
        (playPCMBuffer st0 N sr 16 2).2).currentSoundType = SoundType.pcm ∧
    (audioLoop^[(N + CHUNK_SIZE - 1) / CHUNK_SIZE]
        (playPCMBuffer st0 N sr 16 2).2).pcmPosition = N ∧
    (audioLoop^[(N + CHUNK_SIZE - 1) / CHUNK_SIZE + 1]
        (playPCMBuffer st0 N sr 16 2).2).currentSoundType = SoundType.none ∧
    (audioLoop^[(N + CHUNK_SIZE - 1) / CHUNK_SIZE + 1]
        (playPCMBuffer st0 N sr 16 2).2).pcmPlaying = false := by
  obtain ⟨hret, htype, hplay, hpos, hsize, hvch⟩ :=
    playPCMBuffer_start st0 N sr hinit (by omega)
  rw [hvol] at hvch
  have hiter := audioLoop_iter_pcm (playPCMBuffer st0 N sr 16 2).2 N
    hsize htype hplay hpos hvch ((N + CHUNK_SIZE - 1) / CHUNK_SIZE)
    (by simp only [CHUNK_SIZE]; omega)
  have htype2 : (audioLoop^[(N + CHUNK_SIZE - 1) / CHUNK_SIZE]
      (playPCMBuffer st0 N sr 16 2).2).currentSoundType = SoundType.pcm := by
    rw [hiter]
    exact htype
  have hplay2 : (audioLoop^[(N + CHUNK_SIZE - 1) / CHUNK_SIZE]
      (playPCMBuffer st0 N sr 16 2).2).pcmPlaying = true := by
    rw [hiter]
    exact hplay
  have hvol2 : (audioLoop^[(N + CHUNK_SIZE - 1) / CHUNK_SIZE]
      (playPCMBuffer st0 N sr 16 2).2).volumeChanged = false := by
    rw [hiter]
    exact hvch
  have hge2 : (audioLoop^[(N + CHUNK_SIZE - 1) / CHUNK_SIZE]
      (playPCMBuffer st0 N sr 16 2).2).pcmSizeBytes ≤
      (audioLoop^[(N + CHUNK_SIZE - 1) / CHUNK_SIZE]
      (playPCMBuffer st0 N sr 16 2).2).pcmPosition := by
    rw [hiter]
    show (playPCMBuffer st0 N sr 16 2).2.pcmSizeBytes ≤
      min N (CHUNK_SIZE * ((N + CHUNK_SIZE - 1) / CHUNK_SIZE))
    rw [hsize]
    simp only [CHUNK_SIZE]
    omega
  have hfin := audioLoop_pcm_finish _ htype2 hplay2 hvol2 hge2
  refine ⟨hret, htype2, ?_, ?_, ?_⟩
  · rw [hiter]
    show min N (CHUNK_SIZE * ((N + CHUNK_SIZE - 1) / CHUNK_SIZE)) = N
    simp only [CHUNK_SIZE]
    omega
  · rw [Function.iterate_succ_apply', hfin]
  · rw [Function.iterate_succ_apply', hfin]

/-- Counterexample to C6 as stated: for N = 512 bytes, ceil(N / chunkSize)
is 1, but after one loop call the coordinator is still in PreloadedPCM (the
cursor has just reached the end); it returns to idle only on the second
call. -/
theorem pcm_not_idle_after_ceil_counterexample :
    (512 + CHUNK_SIZE - 1) / CHUNK_SIZE = 1 ∧
    (audioLoop c6Start).currentSoundType = SoundType.pcm ∧
    (audioLoop c6Start).pcmPosition = 512 ∧
    (audioLoop (audioLoop c6Start)).currentSoundType = SoundType.none := by
  exact ⟨rfl, rfl, rfl, rfl⟩

/-- Witness for C6 (amended) at N = 512: one call writes the whole buffer
and leaves PreloadedPCM; the second call returns to idle. -/
theorem pcm_playback_finish_spec_witness :
    (playPCMBuffer (initialAudio 70) 512 44100 16 2).1 = true ∧
    (audioLoop^[(512 + CHUNK_SIZE - 1) / CHUNK_SIZE]
        (playPCMBuffer (initialAudio 70) 512 44100 16 2).2).pcmPosition = 512 ∧
    (audioLoop^[(512 + CHUNK_SIZE - 1) / CHUNK_SIZE + 1]
        (playPCMBuffer (initialAudio 70) 512 44100 16 2).2).currentSoundType =
      SoundType.none := by
  have hw := pcm_playback_finish_spec (initialAudio 70) 512 44100 rfl
    (by norm_num) rfl
  exact ⟨hw.1, hw.2.2.1, hw.2.2.2.1⟩

theorem currentSoundType_stopFileIfFile (st : AudioState) :
    (stopFileIfFile st).currentSoundType =
      if st.currentSoundType = SoundType.file then SoundType.none
      else st.currentSoundType := by
  unfold stopFileIfFile stopFile
  split_ifs <;> rfl

theorem currentSoundType_ensureAudioOut (st : AudioState) :
    (ensureAudioOut st).currentSoundType = st.currentSoundType := by
  unfold ensureAudioOut
  split_ifs <;> rfl

/-- C7 (amended): when playFile fails - missing file, unsupported
extension, or decoder init failure - it returns false and does not start
playback; the mode is left unchanged unless it was StreamingFile, in which
case the pre-existing playback has been torn down to idle; in particular a
coordinator that was idle stays idle.  (The claim as stated says the
coordinator is always left in Idle, which fails for a coordinator in
PreloadedPCM mode.) -/
theorem playFile_failure_spec (env : AudioEnv) (st : AudioState)
    (path : String) (loopPlay : Bool)
    (hinit : st.initialized = true)
    (hfail : env.spiffsExists (stripSpiffs path) = false ∨
      (path.toLower.endsWith ".mp3" = true ∧
        env.mp3BeginOk (stripSpiffs path) = false) ∨
      (path.toLower.endsWith ".mp3" = false ∧
        path.toLower.endsWith ".wav" = true ∧
        env.wavBeginOk (stripSpiffs path) = false) ∨
      (path.toLower.endsWith ".mp3" = false ∧
        path.toLower.endsWith ".wav" = false)) :
    (playFile env st path loopPlay).1 = false ∧
    (playFile env st path loopPlay).2.currentSoundType =
      (if st.currentSoundType = SoundType.file then SoundType.none
       else st.currentSoundType) ∧
    (playFile env st path loopPlay).2.currentSoundType ≠ SoundType.file := by
  have hbase : (ensureAudioOut (stopFileIfFile st)).currentSoundType =
      (if st.currentSoundType = SoundType.file then SoundType.none
       else st.currentSoundType) := by
    rw [currentSoundType_ensureAudioOut, currentSoundType_stopFileIfFile]
  have hbase2 : (ensureAudioOut (stopFileIfFile st)).currentSoundType ≠
      SoundType.file := by
    rw [hbase]
    split_ifs with hft
    · intro hc
      cases hc
    · exact hft
  unfold playFile
  rw [if_neg (by simp [hinit])]
  rcases hfail with hex | ⟨hmp3, hb⟩ | ⟨hmp3f, hwav, hb⟩ | ⟨hmp3f, hwavf⟩
  · rw [if_pos hex]
    exact ⟨rfl, hbase, hbase2⟩
  · by_cases hex : env.spiffsExists (stripSpiffs path) = false
    · rw [if_pos hex]
      exact ⟨rfl, hbase, hbase2⟩
    · rw [if_neg hex, if_pos hmp3, if_pos hb]
      exact ⟨rfl, hbase, hbase2⟩
  · by_cases hex : env.spiffsExists (stripSpiffs path) = false
    · rw [if_pos hex]
      exact ⟨rfl, hbase, hbase2⟩
    · rw [if_neg hex, if_neg (by simp [hmp3f]), if_pos hwav, if_pos hb]
      exact ⟨rfl, hbase, hbase2⟩
  · by_cases hex : env.spiffsExists (stripSpiffs path) = false
    · rw [if_pos hex]
      exact ⟨rfl, hbase, hbase2⟩
    · rw [if_neg hex, if_neg (by simp [hmp3f]), if_neg (by simp [hwavf])]
      exact ⟨rfl, hbase, hbase2⟩

/-- Counterexample to C7 as stated: playFile on a missing path from a
coordinator in PreloadedPCM mode returns false but leaves the coordinator
in PreloadedPCM, not Idle. -/
theorem playFile_missing_not_idle_counterexample :
    c7Env.spiffsExists (stripSpiffs "/a.mp3") = false ∧
    c7PcmState.currentSoundType = SoundType.pcm ∧
    (playFile c7Env c7PcmState "/a.mp3" false).1 = false ∧
    (playFile c7Env c7PcmState "/a.mp3" false).2.currentSoundType =
      SoundType.pcm := by
  exact ⟨rfl, rfl, rfl, rfl⟩

/-- Witness for C7 (amended): a missing file on an idle coordinator fails
and leaves it idle. -/
theorem playFile_failure_spec_witness :
    (playFile c7Env (initialAudio 70) "/missing.mp3" false).1 = false ∧
    (playFile c7Env (initialAudio 70) "/missing.mp3" false).2.currentSoundType =
      SoundType.none := by
  have hw := playFile_failure_spec c7Env (initialAudio 70) "/missing.mp3" false
    rfl (Or.inl rfl)
  refine ⟨hw.1, ?_⟩
  rw [hw.2.1]
  rfl

/-! ## Lemmas about the record loader -/

theorem findIdx_comma_append (r : List Char) :
    ∀ f : List Char, ',' ∉ f →
      List.findIdx? (fun x => x == ',') (f ++ ',' :: r) = some f.length := by
  intro f
  induction f with
  | nil =>
    intro _
    simp
  | cons c cs ih =>
    intro hnc
    simp only [List.mem_cons, not_or] at hnc
    have hc : (c == ',') = false := by
      simp only [beq_eq_false_iff_ne, ne_eq]
      exact fun h => hnc.1 h.symm
    rw [List.cons_append, List.findIdx?_cons, hc]
    simp only [Bool.false_eq_true, if_false]
    rw [List.findIdx?_succ, ih hnc.2]
    simp

theorem findIdx_comma_none :
    ∀ f : List Char, ',' ∉ f →
      List.findIdx? (fun x => x == ',') f = none := by
  intro f hnc
  rw [List.findIdx?_eq_none_iff]
  intro x hx
  simp only [beq_eq_false_iff_ne, ne_eq]
  exact fun h => hnc (h ▸ hx)

theorem take_drop_chunk (s f r : List Char) (p : Nat)
    (hdrop : s.drop p = f ++ ',' :: r) :
    (s.take (p + f.length)).drop p = f := by
  rw [← List.take_drop, hdrop]
  exact List.take_left f (',' :: r)

theorem drop_chunk (s f r : List Char) (p : Nat)
    (hdrop : s.drop p = f ++ ',' :: r) :
    s.drop (p + f.length + 1) = r := by
  have hsplit : s.drop (p + f.length + 1) = (s.drop p).drop (f.length + 1) := by
    rw [List.drop_drop]
    rfl
  rw [hsplit, hdrop, show f ++ ',' :: r = (f ++ [',']) ++ r by simp,
      List.drop_left' (by simp)]

theorem strIndexOfFrom_pos (s f r : List Char) (p : Nat)
    (hdrop : s.drop p = f ++ ',' :: r) (hnc : ',' ∉ f) :
    strIndexOfFrom s ',' p = ((p + f.length : Nat) : Int) := by
  unfold strIndexOfFrom
  rw [hdrop, findIdx_comma_append r f hnc]

theorem strIndexOfFrom_neg (s f : List Char) (p : Nat)
    (hdrop : s.drop p = f) (hnc : ',' ∉ f) :
    strIndexOfFrom s ',' p = -1 := by
  unfold strIndexOfFrom
  rw [hdrop, findIdx_comma_none f hnc]

theorem nextComma_pos (s f r : List Char) (p : Nat)
    (hdrop : s.drop (p + 1) = f ++ ',' :: r) (hnc : ',' ∉ f) :
    nextComma s ((p : Nat) : Int) = ((p + 1 + f.length : Nat) : Int) := by
  unfold nextComma
  have ht : (((p : Nat) : Int) + 1).toNat = p + 1 := by omega
  rw [ht, strIndexOfFrom_pos s f r (p + 1) hdrop hnc]

theorem nextComma_neg (s f : List Char) (p : Nat)
    (hdrop : s.drop (p + 1) = f) (hnc : ',' ∉ f) :
    nextComma s ((p : Nat) : Int) = -1 := by
  unfold nextComma
  have ht : (((p : Nat) : Int) + 1).toNat = p + 1 := by omega
  rw [ht, strIndexOfFrom_neg s f (p + 1) hdrop hnc]

theorem nextComma_restart (s : List Char) :
    nextComma s (-1) = strIndexOfFrom s ',' 0 := by
  unfold nextComma
  norm_num

theorem subStr_eval0 (s f r : List Char) (pb : Nat)
    (hs : s = f ++ ',' :: r) (hpb : pb = f.length) :
    subStr s 0 ((pb : Nat) : Int) = f := by
  unfold subStr
  have h2 : ((pb : Nat) : Int).toNat = pb := by omega
  have h0 : (0 : Int).toNat = 0 := rfl
  rw [h0, h2, hpb, List.drop_zero, hs]
  exact List.take_left f (',' :: r)

theorem subStr_eval_succ (s f r : List Char) (pa pb : Nat)
    (hdrop : s.drop (pa + 1) = f ++ ',' :: r) (hpb : pb = pa + 1 + f.length) :
    subStr s (((pa : Nat) : Int) + 1) ((pb : Nat) : Int) = f := by
  unfold subStr
  have h1 : (((pa : Nat) : Int) + 1).toNat = pa + 1 := by omega
  have h2 : ((pb : Nat) : Int).toNat = pb := by omega
  rw [h1, h2, hpb, show pa + 1 + f.length = (pa + 1) + f.length from rfl]
  exact take_drop_chunk s f r (pa + 1) hdrop

theorem subStrFrom_eval_succ (s f : List Char) (pa : Nat)
    (hdrop : s.drop (pa + 1) = f) :
    subStrFrom s (((pa : Nat) : Int) + 1) = f := by
  unfold subStrFrom
  have h1 : (((pa : Nat) : Int) + 1).toNat = pa + 1 := by omega
  rw [h1, hdrop]

set_option maxHeartbeats 3200000 in
/-- C8 (amended): the loader accepts any prefix of the field list that
contains at least the first five fields (through sound).  The 5-, 7-, 8-
and 9-field prefixes decode their present fields exactly and fill the
missing trailing fields with the version defaults (label Alarm,
snoozeEnabled true, permanentlyDisabled false, empty bottomRowLabel); the
6-field prefix is accepted with the same defaults but its label text is
absorbed into the sound field (the label defaults to Alarm).  Prefixes of
fewer than five fields are rejected (see the counterexample). -/
theorem parse_prefix_spec (id : Nat) (f1 f2 f3 f4 f5 f6 f7 f8 f9 : List Char)
    (hf1 : f1 ≠ [])
    (nc1 : ',' ∉ f1)
    (nc2 : ',' ∉ f2)
    (nc3 : ',' ∉ f3)
    (nc4 : ',' ∉ f4)
    (nc5 : ',' ∉ f5)
    (nc6 : ',' ∉ f6)
    (nc7 : ',' ∉ f7)
    (nc8 : ',' ∉ f8)
    (nc9 : ',' ∉ f9) :
    parseAlarmRecord id (String.mk (f1 ++ ',' :: (f2 ++ ',' :: (f3 ++ ',' :: (f4 ++ ',' :: f5))))) =
      some { id := id, hour := toU8 (atoiChars f1), minute := toU8 (atoiChars f2),
             daysOfWeek := toU8 (atoiChars f3), enabled := atoiChars f4 == 1,
             sound := String.mk f5, label := "Alarm", snoozeEnabled := true,
             permanentlyDisabled := false, bottomRowLabel := "" } ∧
    parseAlarmRecord id (String.mk (f1 ++ ',' :: (f2 ++ ',' :: (f3 ++ ',' :: (f4 ++ ',' :: (f5 ++ ',' :: f6)))))) =
      some { id := id, hour := toU8 (atoiChars f1), minute := toU8 (atoiChars f2),
             daysOfWeek := toU8 (atoiChars f3), enabled := atoiChars f4 == 1,
             sound := String.mk (f5 ++ ',' :: f6), label := "Alarm", snoozeEnabled := true,
             permanentlyDisabled := false, bottomRowLabel := "" } ∧
    parseAlarmRecord id (String.mk (f1 ++ ',' :: (f2 ++ ',' :: (f3 ++ ',' :: (f4 ++ ',' :: (f5 ++ ',' :: (f6 ++ ',' :: f7))))))) =
      some { id := id, hour := toU8 (atoiChars f1), minute := toU8 (atoiChars f2),
             daysOfWeek := toU8 (atoiChars f3), enabled := atoiChars f4 == 1,
             sound := String.mk f5, label := String.mk f6,
             snoozeEnabled := atoiChars f7 == 1,
             permanentlyDisabled := false, bottomRowLabel := "" } ∧
    parseAlarmRecord id (String.mk (f1 ++ ',' :: (f2 ++ ',' :: (f3 ++ ',' :: (f4 ++ ',' :: (f5 ++ ',' :: (f6 ++ ',' :: (f7 ++ ',' :: f8)))))))) =
      some { id := id, hour := toU8 (atoiChars f1), minute := toU8 (atoiChars f2),
             daysOfWeek := toU8 (atoiChars f3), enabled := atoiChars f4 == 1,
             sound := String.mk f5, label := String.mk f6,
             snoozeEnabled := atoiChars f7 == 1,
             permanentlyDisabled := atoiChars f8 == 1, bottomRowLabel := "" } ∧
    parseAlarmRecord id (String.mk (f1 ++ ',' :: (f2 ++ ',' :: (f3 ++ ',' :: (f4 ++ ',' :: (f5 ++ ',' :: (f6 ++ ',' :: (f7 ++ ',' :: (f8 ++ ',' :: f9))))))))) =
      some { id := id, hour := toU8 (atoiChars f1), minute := toU8 (atoiChars f2),
             daysOfWeek := toU8 (atoiChars f3), enabled := atoiChars f4 == 1,
             sound := String.mk f5, label := String.mk f6,
             snoozeEnabled := atoiChars f7 == 1,
             permanentlyDisabled := atoiChars f8 == 1,
             bottomRowLabel := String.mk f9 } := by
  refine ⟨?_, ?_, ?_, ?_, ?_⟩
  · -- 5 fields
    show parseAlarmFields id (f1 ++ ',' :: (f2 ++ ',' :: (f3 ++ ',' :: (f4 ++ ',' :: f5)))) = _
    have hlen : ¬((f1 ++ ',' :: (f2 ++ ',' :: (f3 ++ ',' :: (f4 ++ ',' :: f5)))).length = 0) := by simp
    have e1 : strIndexOfFrom (f1 ++ ',' :: (f2 ++ ',' :: (f3 ++ ',' :: (f4 ++ ',' :: f5)))) ',' 0 = ((0 + f1.length : Nat) : Int) :=
      strIndexOfFrom_pos (f1 ++ ',' :: (f2 ++ ',' :: (f3 ++ ',' :: (f4 ++ ',' :: f5)))) f1 (f2 ++ ',' :: (f3 ++ ',' :: (f4 ++ ',' :: f5))) 0 (by rw [List.drop_zero]) nc1
    have d1 : List.drop (0 + f1.length + 1) (f1 ++ ',' :: (f2 ++ ',' :: (f3 ++ ',' :: (f4 ++ ',' :: f5)))) = f2 ++ ',' :: (f3 ++ ',' :: (f4 ++ ',' :: f5)) :=
      drop_chunk (f1 ++ ',' :: (f2 ++ ',' :: (f3 ++ ',' :: (f4 ++ ',' :: f5)))) f1 (f2 ++ ',' :: (f3 ++ ',' :: (f4 ++ ',' :: f5))) 0 (by rw [List.drop_zero])
    have e2 : nextComma (f1 ++ ',' :: (f2 ++ ',' :: (f3 ++ ',' :: (f4 ++ ',' :: f5)))) ((0 + f1.length : Nat) : Int) = ((0 + f1.length + 1 + f2.length : Nat) : Int) :=
      nextComma_pos (f1 ++ ',' :: (f2 ++ ',' :: (f3 ++ ',' :: (f4 ++ ',' :: f5)))) f2 (f3 ++ ',' :: (f4 ++ ',' :: f5)) (0 + f1.length) d1 nc2
    have d2 : List.drop (0 + f1.length + 1 + f2.length + 1) (f1 ++ ',' :: (f2 ++ ',' :: (f3 ++ ',' :: (f4 ++ ',' :: f5)))) = f3 ++ ',' :: (f4 ++ ',' :: f5) :=
      drop_chunk (f1 ++ ',' :: (f2 ++ ',' :: (f3 ++ ',' :: (f4 ++ ',' :: f5)))) f2 (f3 ++ ',' :: (f4 ++ ',' :: f5)) (0 + f1.length + 1) d1
    have e3 : nextComma (f1 ++ ',' :: (f2 ++ ',' :: (f3 ++ ',' :: (f4 ++ ',' :: f5)))) ((0 + f1.length + 1 + f2.length : Nat) : Int) = ((0 + f1.length + 1 + f2.length + 1 + f3.length : Nat) : Int) :=
      nextComma_pos (f1 ++ ',' :: (f2 ++ ',' :: (f3 ++ ',' :: (f4 ++ ',' :: f5)))) f3 (f4 ++ ',' :: f5) (0 + f1.length + 1 + f2.length) d2 nc3
    have d3 : List.drop (0 + f1.length + 1 + f2.length + 1 + f3.length + 1) (f1 ++ ',' :: (f2 ++ ',' :: (f3 ++ ',' :: (f4 ++ ',' :: f5)))) = f4 ++ ',' :: f5 :=
      drop_chunk (f1 ++ ',' :: (f2 ++ ',' :: (f3 ++ ',' :: (f4 ++ ',' :: f5)))) f3 (f4 ++ ',' :: f5) (0 + f1.length + 1 + f2.length + 1) d2
    have e4 : nextComma (f1 ++ ',' :: (f2 ++ ',' :: (f3 ++ ',' :: (f4 ++ ',' :: f5)))) ((0 + f1.length + 1 + f2.length + 1 + f3.length : Nat) : Int) = ((0 + f1.length + 1 + f2.length + 1 + f3.length + 1 + f4.length : Nat) : Int) :=
      nextComma_pos (f1 ++ ',' :: (f2 ++ ',' :: (f3 ++ ',' :: (f4 ++ ',' :: f5)))) f4 (f5) (0 + f1.length + 1 + f2.length + 1 + f3.length) d3 nc4
    have d4 : List.drop (0 + f1.length + 1 + f2.length + 1 + f3.length + 1 + f4.length + 1) (f1 ++ ',' :: (f2 ++ ',' :: (f3 ++ ',' :: (f4 ++ ',' :: f5)))) = f5 :=
      drop_chunk (f1 ++ ',' :: (f2 ++ ',' :: (f3 ++ ',' :: (f4 ++ ',' :: f5)))) f4 (f5) (0 + f1.length + 1 + f2.length + 1 + f3.length + 1) d3
    have e5 : nextComma (f1 ++ ',' :: (f2 ++ ',' :: (f3 ++ ',' :: (f4 ++ ',' :: f5)))) ((0 + f1.length + 1 + f2.length + 1 + f3.length + 1 + f4.length : Nat) : Int) = -1 :=
      nextComma_neg (f1 ++ ',' :: (f2 ++ ',' :: (f3 ++ ',' :: (f4 ++ ',' :: f5)))) f5 (0 + f1.length + 1 + f2.length + 1 + f3.length + 1 + f4.length) d4 nc5
    have er : nextComma (f1 ++ ',' :: (f2 ++ ',' :: (f3 ++ ',' :: (f4 ++ ',' :: f5)))) (-1) = ((0 + f1.length : Nat) : Int) := (nextComma_restart (f1 ++ ',' :: (f2 ++ ',' :: (f3 ++ ',' :: (f4 ++ ',' :: f5))))).trans e1
    simp only [parseAlarmFields]
    rw [if_neg hlen]
    rw [e1, e2, e3, e4, e5]
    rw [er, e2, e3]
    have hl1 : 0 < f1.length := List.length_pos.mpr hf1
    rw [if_pos ⟨by omega, by omega, by omega, by omega⟩]
    rw [if_neg (by omega)]
    rw [if_neg (by omega)]
    rw [if_neg (by omega)]
    rw [subStr_eval0 (f1 ++ ',' :: (f2 ++ ',' :: (f3 ++ ',' :: (f4 ++ ',' :: f5)))) f1 (f2 ++ ',' :: (f3 ++ ',' :: (f4 ++ ',' :: f5))) (0 + f1.length) rfl (by omega)]
    rw [subStr_eval_succ (f1 ++ ',' :: (f2 ++ ',' :: (f3 ++ ',' :: (f4 ++ ',' :: f5)))) f2 (f3 ++ ',' :: (f4 ++ ',' :: f5)) (0 + f1.length) (0 + f1.length + 1 + f2.length) d1 rfl]
    rw [subStr_eval_succ (f1 ++ ',' :: (f2 ++ ',' :: (f3 ++ ',' :: (f4 ++ ',' :: f5)))) f3 (f4 ++ ',' :: f5) (0 + f1.length + 1 + f2.length) (0 + f1.length + 1 + f2.length + 1 + f3.length) d2 rfl]
    rw [subStr_eval_succ (f1 ++ ',' :: (f2 ++ ',' :: (f3 ++ ',' :: (f4 ++ ',' :: f5)))) f4 (f5) (0 + f1.length + 1 + f2.length + 1 + f3.length) (0 + f1.length + 1 + f2.length + 1 + f3.length + 1 + f4.length) d3 rfl]
    rw [subStrFrom_eval_succ (f1 ++ ',' :: (f2 ++ ',' :: (f3 ++ ',' :: (f4 ++ ',' :: f5)))) f5 (0 + f1.length + 1 + f2.length + 1 + f3.length + 1 + f4.length) d4]
  · -- 6 fields
    show parseAlarmFields id (f1 ++ ',' :: (f2 ++ ',' :: (f3 ++ ',' :: (f4 ++ ',' :: (f5 ++ ',' :: f6))))) = _
    have hlen : ¬((f1 ++ ',' :: (f2 ++ ',' :: (f3 ++ ',' :: (f4 ++ ',' :: (f5 ++ ',' :: f6))))).length = 0) := by simp
    have e1 : strIndexOfFrom (f1 ++ ',' :: (f2 ++ ',' :: (f3 ++ ',' :: (f4 ++ ',' :: (f5 ++ ',' :: f6))))) ',' 0 = ((0 + f1.length : Nat) : Int) :=
      strIndexOfFrom_pos (f1 ++ ',' :: (f2 ++ ',' :: (f3 ++ ',' :: (f4 ++ ',' :: (f5 ++ ',' :: f6))))) f1 (f2 ++ ',' :: (f3 ++ ',' :: (f4 ++ ',' :: (f5 ++ ',' :: f6)))) 0 (by rw [List.drop_zero]) nc1
    have d1 : List.drop (0 + f1.length + 1) (f1 ++ ',' :: (f2 ++ ',' :: (f3 ++ ',' :: (f4 ++ ',' :: (f5 ++ ',' :: f6))))) = f2 ++ ',' :: (f3 ++ ',' :: (f4 ++ ',' :: (f5 ++ ',' :: f6))) :=
      drop_chunk (f1 ++ ',' :: (f2 ++ ',' :: (f3 ++ ',' :: (f4 ++ ',' :: (f5 ++ ',' :: f6))))) f1 (f2 ++ ',' :: (f3 ++ ',' :: (f4 ++ ',' :: (f5 ++ ',' :: f6)))) 0 (by rw [List.drop_zero])
    have e2 : nextComma (f1 ++ ',' :: (f2 ++ ',' :: (f3 ++ ',' :: (f4 ++ ',' :: (f5 ++ ',' :: f6))))) ((0 + f1.length : Nat) : Int) = ((0 + f1.length + 1 + f2.length : Nat) : Int) :=
      nextComma_pos (f1 ++ ',' :: (f2 ++ ',' :: (f3 ++ ',' :: (f4 ++ ',' :: (f5 ++ ',' :: f6))))) f2 (f3 ++ ',' :: (f4 ++ ',' :: (f5 ++ ',' :: f6))) (0 + f1.length) d1 nc2
    have d2 : List.drop (0 + f1.length + 1 + f2.length + 1) (f1 ++ ',' :: (f2 ++ ',' :: (f3 ++ ',' :: (f4 ++ ',' :: (f5 ++ ',' :: f6))))) = f3 ++ ',' :: (f4 ++ ',' :: (f5 ++ ',' :: f6)) :=
      drop_chunk (f1 ++ ',' :: (f2 ++ ',' :: (f3 ++ ',' :: (f4 ++ ',' :: (f5 ++ ',' :: f6))))) f2 (f3 ++ ',' :: (f4 ++ ',' :: (f5 ++ ',' :: f6))) (0 + f1.length + 1) d1
    have e3 : nextComma (f1 ++ ',' :: (f2 ++ ',' :: (f3 ++ ',' :: (f4 ++ ',' :: (f5 ++ ',' :: f6))))) ((0 + f1.length + 1 + f2.length : Nat) : Int) = ((0 + f1.length + 1 + f2.length + 1 + f3.length : Nat) : Int) :=
      nextComma_pos (f1 ++ ',' :: (f2 ++ ',' :: (f3 ++ ',' :: (f4 ++ ',' :: (f5 ++ ',' :: f6))))) f3 (f4 ++ ',' :: (f5 ++ ',' :: f6)) (0 + f1.length + 1 + f2.length) d2 nc3
    have d3 : List.drop (0 + f1.length + 1 + f2.length + 1 + f3.length + 1) (f1 ++ ',' :: (f2 ++ ',' :: (f3 ++ ',' :: (f4 ++ ',' :: (f5 ++ ',' :: f6))))) = f4 ++ ',' :: (f5 ++ ',' :: f6) :=
      drop_chunk (f1 ++ ',' :: (f2 ++ ',' :: (f3 ++ ',' :: (f4 ++ ',' :: (f5 ++ ',' :: f6))))) f3 (f4 ++ ',' :: (f5 ++ ',' :: f6)) (0 + f1.length + 1 + f2.length + 1) d2
    have e4 : nextComma (f1 ++ ',' :: (f2 ++ ',' :: (f3 ++ ',' :: (f4 ++ ',' :: (f5 ++ ',' :: f6))))) ((0 + f1.length + 1 + f2.length + 1 + f3.length : Nat) : Int) = ((0 + f1.length + 1 + f2.length + 1 + f3.length + 1 + f4.length : Nat) : Int) :=
      nextComma_pos (f1 ++ ',' :: (f2 ++ ',' :: (f3 ++ ',' :: (f4 ++ ',' :: (f5 ++ ',' :: f6))))) f4 (f5 ++ ',' :: f6) (0 + f1.length + 1 + f2.length + 1 + f3.length) d3 nc4
    have d4 : List.drop (0 + f1.length + 1 + f2.length + 1 + f3.length + 1 + f4.length + 1) (f1 ++ ',' :: (f2 ++ ',' :: (f3 ++ ',' :: (f4 ++ ',' :: (f5 ++ ',' :: f6))))) = f5 ++ ',' :: f6 :=
      drop_chunk (f1 ++ ',' :: (f2 ++ ',' :: (f3 ++ ',' :: (f4 ++ ',' :: (f5 ++ ',' :: f6))))) f4 (f5 ++ ',' :: f6) (0 + f1.length + 1 + f2.length + 1 + f3.length + 1) d3
    have e5 : nextComma (f1 ++ ',' :: (f2 ++ ',' :: (f3 ++ ',' :: (f4 ++ ',' :: (f5 ++ ',' :: f6))))) ((0 + f1.length + 1 + f2.length + 1 + f3.length + 1 + f4.length : Nat) : Int) = ((0 + f1.length + 1 + f2.length + 1 + f3.length + 1 + f4.length + 1 + f5.length : Nat) : Int) :=
      nextComma_pos (f1 ++ ',' :: (f2 ++ ',' :: (f3 ++ ',' :: (f4 ++ ',' :: (f5 ++ ',' :: f6))))) f5 (f6) (0 + f1.length + 1 + f2.length + 1 + f3.length + 1 + f4.length) d4 nc5
    have d5 : List.drop (0 + f1.length + 1 + f2.length + 1 + f3.length + 1 + f4.length + 1 + f5.length + 1) (f1 ++ ',' :: (f2 ++ ',' :: (f3 ++ ',' :: (f4 ++ ',' :: (f5 ++ ',' :: f6))))) = f6 :=
      drop_chunk (f1 ++ ',' :: (f2 ++ ',' :: (f3 ++ ',' :: (f4 ++ ',' :: (f5 ++ ',' :: f6))))) f5 (f6) (0 + f1.length + 1 + f2.length + 1 + f3.length + 1 + f4.length + 1) d4
    have e6 : nextComma (f1 ++ ',' :: (f2 ++ ',' :: (f3 ++ ',' :: (f4 ++ ',' :: (f5 ++ ',' :: f6))))) ((0 + f1.length + 1 + f2.length + 1 + f3.length + 1 + f4.length + 1 + f5.length : Nat) : Int) = -1 :=
      nextComma_neg (f1 ++ ',' :: (f2 ++ ',' :: (f3 ++ ',' :: (f4 ++ ',' :: (f5 ++ ',' :: f6))))) f6 (0 + f1.length + 1 + f2.length + 1 + f3.length + 1 + f4.length + 1 + f5.length) d5 nc6
    have er : nextComma (f1 ++ ',' :: (f2 ++ ',' :: (f3 ++ ',' :: (f4 ++ ',' :: (f5 ++ ',' :: f6))))) (-1) = ((0 + f1.length : Nat) : Int) := (nextComma_restart (f1 ++ ',' :: (f2 ++ ',' :: (f3 ++ ',' :: (f4 ++ ',' :: (f5 ++ ',' :: f6)))))).trans e1
    simp only [parseAlarmFields]
    rw [if_neg hlen]
    rw [e1, e2, e3, e4, e5, e6]
    rw [er, e2]
    have hl1 : 0 < f1.length := List.length_pos.mpr hf1
    rw [if_pos ⟨by omega, by omega, by omega, by omega⟩]
    rw [if_neg (by omega)]
    rw [if_neg (by omega)]
    rw [if_neg (by omega)]
    rw [subStr_eval0 (f1 ++ ',' :: (f2 ++ ',' :: (f3 ++ ',' :: (f4 ++ ',' :: (f5 ++ ',' :: f6))))) f1 (f2 ++ ',' :: (f3 ++ ',' :: (f4 ++ ',' :: (f5 ++ ',' :: f6)))) (0 + f1.length) rfl (by omega)]
    rw [subStr_eval_succ (f1 ++ ',' :: (f2 ++ ',' :: (f3 ++ ',' :: (f4 ++ ',' :: (f5 ++ ',' :: f6))))) f2 (f3 ++ ',' :: (f4 ++ ',' :: (f5 ++ ',' :: f6))) (0 + f1.length) (0 + f1.length + 1 + f2.length) d1 rfl]
    rw [subStr_eval_succ (f1 ++ ',' :: (f2 ++ ',' :: (f3 ++ ',' :: (f4 ++ ',' :: (f5 ++ ',' :: f6))))) f3 (f4 ++ ',' :: (f5 ++ ',' :: f6)) (0 + f1.length + 1 + f2.length) (0 + f1.length + 1 + f2.length + 1 + f3.length) d2 rfl]
    rw [subStr_eval_succ (f1 ++ ',' :: (f2 ++ ',' :: (f3 ++ ',' :: (f4 ++ ',' :: (f5 ++ ',' :: f6))))) f4 (f5 ++ ',' :: f6) (0 + f1.length + 1 + f2.length + 1 + f3.length) (0 + f1.length + 1 + f2.length + 1 + f3.length + 1 + f4.length) d3 rfl]
    rw [subStrFrom_eval_succ (f1 ++ ',' :: (f2 ++ ',' :: (f3 ++ ',' :: (f4 ++ ',' :: (f5 ++ ',' :: f6))))) (f5 ++ ',' :: f6) (0 + f1.length + 1 + f2.length + 1 + f3.length + 1 + f4.length) d4]
  · -- 7 fields
    show parseAlarmFields id (f1 ++ ',' :: (f2 ++ ',' :: (f3 ++ ',' :: (f4 ++ ',' :: (f5 ++ ',' :: (f6 ++ ',' :: f7)))))) = _
    have hlen : ¬((f1 ++ ',' :: (f2 ++ ',' :: (f3 ++ ',' :: (f4 ++ ',' :: (f5 ++ ',' :: (f6 ++ ',' :: f7)))))).length = 0) := by simp
    have e1 : strIndexOfFrom (f1 ++ ',' :: (f2 ++ ',' :: (f3 ++ ',' :: (f4 ++ ',' :: (f5 ++ ',' :: (f6 ++ ',' :: f7)))))) ',' 0 = ((0 + f1.length : Nat) : Int) :=
      strIndexOfFrom_pos (f1 ++ ',' :: (f2 ++ ',' :: (f3 ++ ',' :: (f4 ++ ',' :: (f5 ++ ',' :: (f6 ++ ',' :: f7)))))) f1 (f2 ++ ',' :: (f3 ++ ',' :: (f4 ++ ',' :: (f5 ++ ',' :: (f6 ++ ',' :: f7))))) 0 (by rw [List.drop_zero]) nc1
    have d1 : List.drop (0 + f1.length + 1) (f1 ++ ',' :: (f2 ++ ',' :: (f3 ++ ',' :: (f4 ++ ',' :: (f5 ++ ',' :: (f6 ++ ',' :: f7)))))) = f2 ++ ',' :: (f3 ++ ',' :: (f4 ++ ',' :: (f5 ++ ',' :: (f6 ++ ',' :: f7)))) :=
      drop_chunk (f1 ++ ',' :: (f2 ++ ',' :: (f3 ++ ',' :: (f4 ++ ',' :: (f5 ++ ',' :: (f6 ++ ',' :: f7)))))) f1 (f2 ++ ',' :: (f3 ++ ',' :: (f4 ++ ',' :: (f5 ++ ',' :: (f6 ++ ',' :: f7))))) 0 (by rw [List.drop_zero])
    have e2 : nextComma (f1 ++ ',' :: (f2 ++ ',' :: (f3 ++ ',' :: (f4 ++ ',' :: (f5 ++ ',' :: (f6 ++ ',' :: f7)))))) ((0 + f1.length : Nat) : Int) = ((0 + f1.length + 1 + f2.length : Nat) : Int) :=
      nextComma_pos (f1 ++ ',' :: (f2 ++ ',' :: (f3 ++ ',' :: (f4 ++ ',' :: (f5 ++ ',' :: (f6 ++ ',' :: f7)))))) f2 (f3 ++ ',' :: (f4 ++ ',' :: (f5 ++ ',' :: (f6 ++ ',' :: f7)))) (0 + f1.length) d1 nc2
    have d2 : List.drop (0 + f1.length + 1 + f2.length + 1) (f1 ++ ',' :: (f2 ++ ',' :: (f3 ++ ',' :: (f4 ++ ',' :: (f5 ++ ',' :: (f6 ++ ',' :: f7)))))) = f3 ++ ',' :: (f4 ++ ',' :: (f5 ++ ',' :: (f6 ++ ',' :: f7))) :=
      drop_chunk (f1 ++ ',' :: (f2 ++ ',' :: (f3 ++ ',' :: (f4 ++ ',' :: (f5 ++ ',' :: (f6 ++ ',' :: f7)))))) f2 (f3 ++ ',' :: (f4 ++ ',' :: (f5 ++ ',' :: (f6 ++ ',' :: f7)))) (0 + f1.length + 1) d1
    have e3 : nextComma (f1 ++ ',' :: (f2 ++ ',' :: (f3 ++ ',' :: (f4 ++ ',' :: (f5 ++ ',' :: (f6 ++ ',' :: f7)))))) ((0 + f1.length + 1 + f2.length : Nat) : Int) = ((0 + f1.length + 1 + f2.length + 1 + f3.length : Nat) : Int) :=
      nextComma_pos (f1 ++ ',' :: (f2 ++ ',' :: (f3 ++ ',' :: (f4 ++ ',' :: (f5 ++ ',' :: (f6 ++ ',' :: f7)))))) f3 (f4 ++ ',' :: (f5 ++ ',' :: (f6 ++ ',' :: f7))) (0 + f1.length + 1 + f2.length) d2 nc3
    have d3 : List.drop (0 + f1.length + 1 + f2.length + 1 + f3.length + 1) (f1 ++ ',' :: (f2 ++ ',' :: (f3 ++ ',' :: (f4 ++ ',' :: (f5 ++ ',' :: (f6 ++ ',' :: f7)))))) = f4 ++ ',' :: (f5 ++ ',' :: (f6 ++ ',' :: f7)) :=
      drop_chunk (f1 ++ ',' :: (f2 ++ ',' :: (f3 ++ ',' :: (f4 ++ ',' :: (f5 ++ ',' :: (f6 ++ ',' :: f7)))))) f3 (f4 ++ ',' :: (f5 ++ ',' :: (f6 ++ ',' :: f7))) (0 + f1.length + 1 + f2.length + 1) d2
    have e4 : nextComma (f1 ++ ',' :: (f2 ++ ',' :: (f3 ++ ',' :: (f4 ++ ',' :: (f5 ++ ',' :: (f6 ++ ',' :: f7)))))) ((0 + f1.length + 1 + f2.length + 1 + f3.length : Nat) : Int) = ((0 + f1.length + 1 + f2.length + 1 + f3.length + 1 + f4.length : Nat) : Int) :=
      nextComma_pos (f1 ++ ',' :: (f2 ++ ',' :: (f3 ++ ',' :: (f4 ++ ',' :: (f5 ++ ',' :: (f6 ++ ',' :: f7)))))) f4 (f5 ++ ',' :: (f6 ++ ',' :: f7)) (0 + f1.length + 1 + f2.length + 1 + f3.length) d3 nc4
    have d4 : List.drop (0 + f1.length + 1 + f2.length + 1 + f3.length + 1 + f4.length + 1) (f1 ++ ',' :: (f2 ++ ',' :: (f3 ++ ',' :: (f4 ++ ',' :: (f5 ++ ',' :: (f6 ++ ',' :: f7)))))) = f5 ++ ',' :: (f6 ++ ',' :: f7) :=
      drop_chunk (f1 ++ ',' :: (f2 ++ ',' :: (f3 ++ ',' :: (f4 ++ ',' :: (f5 ++ ',' :: (f6 ++ ',' :: f7)))))) f4 (f5 ++ ',' :: (f6 ++ ',' :: f7)) (0 + f1.length + 1 + f2.length + 1 + f3.length + 1) d3
    have e5 : nextComma (f1 ++ ',' :: (f2 ++ ',' :: (f3 ++ ',' :: (f4 ++ ',' :: (f5 ++ ',' :: (f6 ++ ',' :: f7)))))) ((0 + f1.length + 1 + f2.length + 1 + f3.length + 1 + f4.length : Nat) : Int) = ((0 + f1.length + 1 + f2.length + 1 + f3.length + 1 + f4.length + 1 + f5.length : Nat) : Int) :=
      nextComma_pos (f1 ++ ',' :: (f2 ++ ',' :: (f3 ++ ',' :: (f4 ++ ',' :: (f5 ++ ',' :: (f6 ++ ',' :: f7)))))) f5 (f6 ++ ',' :: f7) (0 + f1.length + 1 + f2.length + 1 + f3.length + 1 + f4.length) d4 nc5
    have d5 : List.drop (0 + f1.length + 1 + f2.length + 1 + f3.length + 1 + f4.length + 1 + f5.length + 1) (f1 ++ ',' :: (f2 ++ ',' :: (f3 ++ ',' :: (f4 ++ ',' :: (f5 ++ ',' :: (f6 ++ ',' :: f7)))))) = f6 ++ ',' :: f7 :=
      drop_chunk (f1 ++ ',' :: (f2 ++ ',' :: (f3 ++ ',' :: (f4 ++ ',' :: (f5 ++ ',' :: (f6 ++ ',' :: f7)))))) f5 (f6 ++ ',' :: f7) (0 + f1.length + 1 + f2.length + 1 + f3.length + 1 + f4.length + 1) d4
    have e6 : nextComma (f1 ++ ',' :: (f2 ++ ',' :: (f3 ++ ',' :: (f4 ++ ',' :: (f5 ++ ',' :: (f6 ++ ',' :: f7)))))) ((0 + f1.length + 1 + f2.length + 1 + f3.length + 1 + f4.length + 1 + f5.length : Nat) : Int) = ((0 + f1.length + 1 + f2.length + 1 + f3.length + 1 + f4.length + 1 + f5.length + 1 + f6.length : Nat) : Int) :=
      nextComma_pos (f1 ++ ',' :: (f2 ++ ',' :: (f3 ++ ',' :: (f4 ++ ',' :: (f5 ++ ',' :: (f6 ++ ',' :: f7)))))) f6 (f7) (0 + f1.length + 1 + f2.length + 1 + f3.length + 1 + f4.length + 1 + f5.length) d5 nc6
    have d6 : List.drop (0 + f1.length + 1 + f2.length + 1 + f3.length + 1 + f4.length + 1 + f5.length + 1 + f6.length + 1) (f1 ++ ',' :: (f2 ++ ',' :: (f3 ++ ',' :: (f4 ++ ',' :: (f5 ++ ',' :: (f6 ++ ',' :: f7)))))) = f7 :=
      drop_chunk (f1 ++ ',' :: (f2 ++ ',' :: (f3 ++ ',' :: (f4 ++ ',' :: (f5 ++ ',' :: (f6 ++ ',' :: f7)))))) f6 (f7) (0 + f1.length + 1 + f2.length + 1 + f3.length + 1 + f4.length + 1 + f5.length + 1) d5
    have e7 : nextComma (f1 ++ ',' :: (f2 ++ ',' :: (f3 ++ ',' :: (f4 ++ ',' :: (f5 ++ ',' :: (f6 ++ ',' :: f7)))))) ((0 + f1.length + 1 + f2.length + 1 + f3.length + 1 + f4.length + 1 + f5.length + 1 + f6.length : Nat) : Int) = -1 :=
      nextComma_neg (f1 ++ ',' :: (f2 ++ ',' :: (f3 ++ ',' :: (f4 ++ ',' :: (f5 ++ ',' :: (f6 ++ ',' :: f7)))))) f7 (0 + f1.length + 1 + f2.length + 1 + f3.length + 1 + f4.length + 1 + f5.length + 1 + f6.length) d6 nc7
    have er : nextComma (f1 ++ ',' :: (f2 ++ ',' :: (f3 ++ ',' :: (f4 ++ ',' :: (f5 ++ ',' :: (f6 ++ ',' :: f7)))))) (-1) = ((0 + f1.length : Nat) : Int) := (nextComma_restart (f1 ++ ',' :: (f2 ++ ',' :: (f3 ++ ',' :: (f4 ++ ',' :: (f5 ++ ',' :: (f6 ++ ',' :: f7))))))).trans e1
    simp only [parseAlarmFields]
    rw [if_neg hlen]
    rw [e1, e2, e3, e4, e5, e6, e7]
    rw [er]
    have hl1 : 0 < f1.length := List.length_pos.mpr hf1
    rw [if_pos ⟨by omega, by omega, by omega, by omega⟩]
    rw [if_neg (by omega)]
    rw [if_neg (by omega)]
    rw [if_pos ⟨by omega, by omega⟩]
    rw [subStr_eval0 (f1 ++ ',' :: (f2 ++ ',' :: (f3 ++ ',' :: (f4 ++ ',' :: (f5 ++ ',' :: (f6 ++ ',' :: f7)))))) f1 (f2 ++ ',' :: (f3 ++ ',' :: (f4 ++ ',' :: (f5 ++ ',' :: (f6 ++ ',' :: f7))))) (0 + f1.length) rfl (by omega)]
    rw [subStr_eval_succ (f1 ++ ',' :: (f2 ++ ',' :: (f3 ++ ',' :: (f4 ++ ',' :: (f5 ++ ',' :: (f6 ++ ',' :: f7)))))) f2 (f3 ++ ',' :: (f4 ++ ',' :: (f5 ++ ',' :: (f6 ++ ',' :: f7)))) (0 + f1.length) (0 + f1.length + 1 + f2.length) d1 rfl]
    rw [subStr_eval_succ (f1 ++ ',' :: (f2 ++ ',' :: (f3 ++ ',' :: (f4 ++ ',' :: (f5 ++ ',' :: (f6 ++ ',' :: f7)))))) f3 (f4 ++ ',' :: (f5 ++ ',' :: (f6 ++ ',' :: f7))) (0 + f1.length + 1 + f2.length) (0 + f1.length + 1 + f2.length + 1 + f3.length) d2 rfl]
    rw [subStr_eval_succ (f1 ++ ',' :: (f2 ++ ',' :: (f3 ++ ',' :: (f4 ++ ',' :: (f5 ++ ',' :: (f6 ++ ',' :: f7)))))) f4 (f5 ++ ',' :: (f6 ++ ',' :: f7)) (0 + f1.length + 1 + f2.length + 1 + f3.length) (0 + f1.length + 1 + f2.length + 1 + f3.length + 1 + f4.length) d3 rfl]
    rw [subStr_eval_succ (f1 ++ ',' :: (f2 ++ ',' :: (f3 ++ ',' :: (f4 ++ ',' :: (f5 ++ ',' :: (f6 ++ ',' :: f7)))))) f5 (f6 ++ ',' :: f7) (0 + f1.length + 1 + f2.length + 1 + f3.length + 1 + f4.length) (0 + f1.length + 1 + f2.length + 1 + f3.length + 1 + f4.length + 1 + f5.length) d4 rfl]
    rw [subStr_eval_succ (f1 ++ ',' :: (f2 ++ ',' :: (f3 ++ ',' :: (f4 ++ ',' :: (f5 ++ ',' :: (f6 ++ ',' :: f7)))))) f6 (f7) (0 + f1.length + 1 + f2.length + 1 + f3.length + 1 + f4.length + 1 + f5.length) (0 + f1.length + 1 + f2.length + 1 + f3.length + 1 + f4.length + 1 + f5.length + 1 + f6.length) d5 rfl]
    rw [subStrFrom_eval_succ (f1 ++ ',' :: (f2 ++ ',' :: (f3 ++ ',' :: (f4 ++ ',' :: (f5 ++ ',' :: (f6 ++ ',' :: f7)))))) f7 (0 + f1.length + 1 + f2.length + 1 + f3.length + 1 + f4.length + 1 + f5.length + 1 + f6.length) d6]
  · -- 8 fields
    show parseAlarmFields id (f1 ++ ',' :: (f2 ++ ',' :: (f3 ++ ',' :: (f4 ++ ',' :: (f5 ++ ',' :: (f6 ++ ',' :: (f7 ++ ',' :: f8))))))) = _
    have hlen : ¬((f1 ++ ',' :: (f2 ++ ',' :: (f3 ++ ',' :: (f4 ++ ',' :: (f5 ++ ',' :: (f6 ++ ',' :: (f7 ++ ',' :: f8))))))).length = 0) := by simp
    have e1 : strIndexOfFrom (f1 ++ ',' :: (f2 ++ ',' :: (f3 ++ ',' :: (f4 ++ ',' :: (f5 ++ ',' :: (f6 ++ ',' :: (f7 ++ ',' :: f8))))))) ',' 0 = ((0 + f1.length : Nat) : Int) :=
      strIndexOfFrom_pos (f1 ++ ',' :: (f2 ++ ',' :: (f3 ++ ',' :: (f4 ++ ',' :: (f5 ++ ',' :: (f6 ++ ',' :: (f7 ++ ',' :: f8))))))) f1 (f2 ++ ',' :: (f3 ++ ',' :: (f4 ++ ',' :: (f5 ++ ',' :: (f6 ++ ',' :: (f7 ++ ',' :: f8)))))) 0 (by rw [List.drop_zero]) nc1
    have d1 : List.drop (0 + f1.length + 1) (f1 ++ ',' :: (f2 ++ ',' :: (f3 ++ ',' :: (f4 ++ ',' :: (f5 ++ ',' :: (f6 ++ ',' :: (f7 ++ ',' :: f8))))))) = f2 ++ ',' :: (f3 ++ ',' :: (f4 ++ ',' :: (f5 ++ ',' :: (f6 ++ ',' :: (f7 ++ ',' :: f8))))) :=
      drop_chunk (f1 ++ ',' :: (f2 ++ ',' :: (f3 ++ ',' :: (f4 ++ ',' :: (f5 ++ ',' :: (f6 ++ ',' :: (f7 ++ ',' :: f8))))))) f1 (f2 ++ ',' :: (f3 ++ ',' :: (f4 ++ ',' :: (f5 ++ ',' :: (f6 ++ ',' :: (f7 ++ ',' :: f8)))))) 0 (by rw [List.drop_zero])
    have e2 : nextComma (f1 ++ ',' :: (f2 ++ ',' :: (f3 ++ ',' :: (f4 ++ ',' :: (f5 ++ ',' :: (f6 ++ ',' :: (f7 ++ ',' :: f8))))))) ((0 + f1.length : Nat) : Int) = ((0 + f1.length + 1 + f2.length : Nat) : Int) :=
      nextComma_pos (f1 ++ ',' :: (f2 ++ ',' :: (f3 ++ ',' :: (f4 ++ ',' :: (f5 ++ ',' :: (f6 ++ ',' :: (f7 ++ ',' :: f8))))))) f2 (f3 ++ ',' :: (f4 ++ ',' :: (f5 ++ ',' :: (f6 ++ ',' :: (f7 ++ ',' :: f8))))) (0 + f1.length) d1 nc2
    have d2 : List.drop (0 + f1.length + 1 + f2.length + 1) (f1 ++ ',' :: (f2 ++ ',' :: (f3 ++ ',' :: (f4 ++ ',' :: (f5 ++ ',' :: (f6 ++ ',' :: (f7 ++ ',' :: f8))))))) = f3 ++ ',' :: (f4 ++ ',' :: (f5 ++ ',' :: (f6 ++ ',' :: (f7 ++ ',' :: f8)))) :=
      drop_chunk (f1 ++ ',' :: (f2 ++ ',' :: (f3 ++ ',' :: (f4 ++ ',' :: (f5 ++ ',' :: (f6 ++ ',' :: (f7 ++ ',' :: f8))))))) f2 (f3 ++ ',' :: (f4 ++ ',' :: (f5 ++ ',' :: (f6 ++ ',' :: (f7 ++ ',' :: f8))))) (0 + f1.length + 1) d1
    have e3 : nextComma (f1 ++ ',' :: (f2 ++ ',' :: (f3 ++ ',' :: (f4 ++ ',' :: (f5 ++ ',' :: (f6 ++ ',' :: (f7 ++ ',' :: f8))))))) ((0 + f1.length + 1 + f2.length : Nat) : Int) = ((0 + f1.length + 1 + f2.length + 1 + f3.length : Nat) : Int) :=
      nextComma_pos (f1 ++ ',' :: (f2 ++ ',' :: (f3 ++ ',' :: (f4 ++ ',' :: (f5 ++ ',' :: (f6 ++ ',' :: (f7 ++ ',' :: f8))))))) f3 (f4 ++ ',' :: (f5 ++ ',' :: (f6 ++ ',' :: (f7 ++ ',' :: f8)))) (0 + f1.length + 1 + f2.length) d2 nc3
    have d3 : List.drop (0 + f1.length + 1 + f2.length + 1 + f3.length + 1) (f1 ++ ',' :: (f2 ++ ',' :: (f3 ++ ',' :: (f4 ++ ',' :: (f5 ++ ',' :: (f6 ++ ',' :: (f7 ++ ',' :: f8))))))) = f4 ++ ',' :: (f5 ++ ',' :: (f6 ++ ',' :: (f7 ++ ',' :: f8))) :=
      drop_chunk (f1 ++ ',' :: (f2 ++ ',' :: (f3 ++ ',' :: (f4 ++ ',' :: (f5 ++ ',' :: (f6 ++ ',' :: (f7 ++ ',' :: f8))))))) f3 (f4 ++ ',' :: (f5 ++ ',' :: (f6 ++ ',' :: (f7 ++ ',' :: f8)))) (0 + f1.length + 1 + f2.length + 1) d2
    have e4 : nextComma (f1 ++ ',' :: (f2 ++ ',' :: (f3 ++ ',' :: (f4 ++ ',' :: (f5 ++ ',' :: (f6 ++ ',' :: (f7 ++ ',' :: f8))))))) ((0 + f1.length + 1 + f2.length + 1 + f3.length : Nat) : Int) = ((0 + f1.length + 1 + f2.length + 1 + f3.length + 1 + f4.length : Nat) : Int) :=
      nextComma_pos (f1 ++ ',' :: (f2 ++ ',' :: (f3 ++ ',' :: (f4 ++ ',' :: (f5 ++ ',' :: (f6 ++ ',' :: (f7 ++ ',' :: f8))))))) f4 (f5 ++ ',' :: (f6 ++ ',' :: (f7 ++ ',' :: f8))) (0 + f1.length + 1 + f2.length + 1 + f3.length) d3 nc4
    have d4 : List.drop (0 + f1.length + 1 + f2.length + 1 + f3.length + 1 + f4.length + 1) (f1 ++ ',' :: (f2 ++ ',' :: (f3 ++ ',' :: (f4 ++ ',' :: (f5 ++ ',' :: (f6 ++ ',' :: (f7 ++ ',' :: f8))))))) = f5 ++ ',' :: (f6 ++ ',' :: (f7 ++ ',' :: f8)) :=
      drop_chunk (f1 ++ ',' :: (f2 ++ ',' :: (f3 ++ ',' :: (f4 ++ ',' :: (f5 ++ ',' :: (f6 ++ ',' :: (f7 ++ ',' :: f8))))))) f4 (f5 ++ ',' :: (f6 ++ ',' :: (f7 ++ ',' :: f8))) (0 + f1.length + 1 + f2.length + 1 + f3.length + 1) d3
    have e5 : nextComma (f1 ++ ',' :: (f2 ++ ',' :: (f3 ++ ',' :: (f4 ++ ',' :: (f5 ++ ',' :: (f6 ++ ',' :: (f7 ++ ',' :: f8))))))) ((0 + f1.length + 1 + f2.length + 1 + f3.length + 1 + f4.length : Nat) : Int) = ((0 + f1.length + 1 + f2.length + 1 + f3.length + 1 + f4.length + 1 + f5.length : Nat) : Int) :=
      nextComma_pos (f1 ++ ',' :: (f2 ++ ',' :: (f3 ++ ',' :: (f4 ++ ',' :: (f5 ++ ',' :: (f6 ++ ',' :: (f7 ++ ',' :: f8))))))) f5 (f6 ++ ',' :: (f7 ++ ',' :: f8)) (0 + f1.length + 1 + f2.length + 1 + f3.length + 1 + f4.length) d4 nc5
    have d5 : List.drop (0 + f1.length + 1 + f2.length + 1 + f3.length + 1 + f4.length + 1 + f5.length + 1) (f1 ++ ',' :: (f2 ++ ',' :: (f3 ++ ',' :: (f4 ++ ',' :: (f5 ++ ',' :: (f6 ++ ',' :: (f7 ++ ',' :: f8))))))) = f6 ++ ',' :: (f7 ++ ',' :: f8) :=
      drop_chunk (f1 ++ ',' :: (f2 ++ ',' :: (f3 ++ ',' :: (f4 ++ ',' :: (f5 ++ ',' :: (f6 ++ ',' :: (f7 ++ ',' :: f8))))))) f5 (f6 ++ ',' :: (f7 ++ ',' :: f8)) (0 + f1.length + 1 + f2.length + 1 + f3.length + 1 + f4.length + 1) d4
    have e6 : nextComma (f1 ++ ',' :: (f2 ++ ',' :: (f3 ++ ',' :: (f4 ++ ',' :: (f5 ++ ',' :: (f6 ++ ',' :: (f7 ++ ',' :: f8))))))) ((0 + f1.length + 1 + f2.length + 1 + f3.length + 1 + f4.length + 1 + f5.length : Nat) : Int) = ((0 + f1.length + 1 + f2.length + 1 + f3.length + 1 + f4.length + 1 + f5.length + 1 + f6.length : Nat) : Int) :=
      nextComma_pos (f1 ++ ',' :: (f2 ++ ',' :: (f3 ++ ',' :: (f4 ++ ',' :: (f5 ++ ',' :: (f6 ++ ',' :: (f7 ++ ',' :: f8))))))) f6 (f7 ++ ',' :: f8) (0 + f1.length + 1 + f2.length + 1 + f3.length + 1 + f4.length + 1 + f5.length) d5 nc6
    have d6 : List.drop (0 + f1.length + 1 + f2.length + 1 + f3.length + 1 + f4.length + 1 + f5.length + 1 + f6.length + 1) (f1 ++ ',' :: (f2 ++ ',' :: (f3 ++ ',' :: (f4 ++ ',' :: (f5 ++ ',' :: (f6 ++ ',' :: (f7 ++ ',' :: f8))))))) = f7 ++ ',' :: f8 :=
      drop_chunk (f1 ++ ',' :: (f2 ++ ',' :: (f3 ++ ',' :: (f4 ++ ',' :: (f5 ++ ',' :: (f6 ++ ',' :: (f7 ++ ',' :: f8))))))) f6 (f7 ++ ',' :: f8) (0 + f1.length + 1 + f2.length + 1 + f3.length + 1 + f4.length + 1 + f5.length + 1) d5
    have e7 : nextComma (f1 ++ ',' :: (f2 ++ ',' :: (f3 ++ ',' :: (f4 ++ ',' :: (f5 ++ ',' :: (f6 ++ ',' :: (f7 ++ ',' :: f8))))))) ((0 + f1.length + 1 + f2.length + 1 + f3.length + 1 + f4.length + 1 + f5.length + 1 + f6.length : Nat) : Int) = ((0 + f1.length + 1 + f2.length + 1 + f3.length + 1 + f4.length + 1 + f5.length + 1 + f6.length + 1 + f7.length : Nat) : Int) :=
      nextComma_pos (f1 ++ ',' :: (f2 ++ ',' :: (f3 ++ ',' :: (f4 ++ ',' :: (f5 ++ ',' :: (f6 ++ ',' :: (f7 ++ ',' :: f8))))))) f7 (f8) (0 + f1.length + 1 + f2.length + 1 + f3.length + 1 + f4.length + 1 + f5.length + 1 + f6.length) d6 nc7
    have d7 : List.drop (0 + f1.length + 1 + f2.length + 1 + f3.length + 1 + f4.length + 1 + f5.length + 1 + f6.length + 1 + f7.length + 1) (f1 ++ ',' :: (f2 ++ ',' :: (f3 ++ ',' :: (f4 ++ ',' :: (f5 ++ ',' :: (f6 ++ ',' :: (f7 ++ ',' :: f8))))))) = f8 :=
      drop_chunk (f1 ++ ',' :: (f2 ++ ',' :: (f3 ++ ',' :: (f4 ++ ',' :: (f5 ++ ',' :: (f6 ++ ',' :: (f7 ++ ',' :: f8))))))) f7 (f8) (0 + f1.length + 1 + f2.length + 1 + f3.length + 1 + f4.length + 1 + f5.length + 1 + f6.length + 1) d6
    have e8 : nextComma (f1 ++ ',' :: (f2 ++ ',' :: (f3 ++ ',' :: (f4 ++ ',' :: (f5 ++ ',' :: (f6 ++ ',' :: (f7 ++ ',' :: f8))))))) ((0 + f1.length + 1 + f2.length + 1 + f3.length + 1 + f4.length + 1 + f5.length + 1 + f6.length + 1 + f7.length : Nat) : Int) = -1 :=
      nextComma_neg (f1 ++ ',' :: (f2 ++ ',' :: (f3 ++ ',' :: (f4 ++ ',' :: (f5 ++ ',' :: (f6 ++ ',' :: (f7 ++ ',' :: f8))))))) f8 (0 + f1.length + 1 + f2.length + 1 + f3.length + 1 + f4.length + 1 + f5.length + 1 + f6.length + 1 + f7.length) d7 nc8
    have er : nextComma (f1 ++ ',' :: (f2 ++ ',' :: (f3 ++ ',' :: (f4 ++ ',' :: (f5 ++ ',' :: (f6 ++ ',' :: (f7 ++ ',' :: f8))))))) (-1) = ((0 + f1.length : Nat) : Int) := (nextComma_restart (f1 ++ ',' :: (f2 ++ ',' :: (f3 ++ ',' :: (f4 ++ ',' :: (f5 ++ ',' :: (f6 ++ ',' :: (f7 ++ ',' :: f8)))))))).trans e1
    simp only [parseAlarmFields]
    rw [if_neg hlen]
    rw [e1, e2, e3, e4, e5, e6, e7, e8]
    have hl1 : 0 < f1.length := List.length_pos.mpr hf1
    rw [if_pos ⟨by omega, by omega, by omega, by omega⟩]
    rw [if_neg (by omega)]
    rw [if_pos ⟨by omega, by omega, by omega⟩]
    rw [subStr_eval0 (f1 ++ ',' :: (f2 ++ ',' :: (f3 ++ ',' :: (f4 ++ ',' :: (f5 ++ ',' :: (f6 ++ ',' :: (f7 ++ ',' :: f8))))))) f1 (f2 ++ ',' :: (f3 ++ ',' :: (f4 ++ ',' :: (f5 ++ ',' :: (f6 ++ ',' :: (f7 ++ ',' :: f8)))))) (0 + f1.length) rfl (by omega)]
    rw [subStr_eval_succ (f1 ++ ',' :: (f2 ++ ',' :: (f3 ++ ',' :: (f4 ++ ',' :: (f5 ++ ',' :: (f6 ++ ',' :: (f7 ++ ',' :: f8))))))) f2 (f3 ++ ',' :: (f4 ++ ',' :: (f5 ++ ',' :: (f6 ++ ',' :: (f7 ++ ',' :: f8))))) (0 + f1.length) (0 + f1.length + 1 + f2.length) d1 rfl]
    rw [subStr_eval_succ (f1 ++ ',' :: (f2 ++ ',' :: (f3 ++ ',' :: (f4 ++ ',' :: (f5 ++ ',' :: (f6 ++ ',' :: (f7 ++ ',' :: f8))))))) f3 (f4 ++ ',' :: (f5 ++ ',' :: (f6 ++ ',' :: (f7 ++ ',' :: f8)))) (0 + f1.length + 1 + f2.length) (0 + f1.length + 1 + f2.length + 1 + f3.length) d2 rfl]
    rw [subStr_eval_succ (f1 ++ ',' :: (f2 ++ ',' :: (f3 ++ ',' :: (f4 ++ ',' :: (f5 ++ ',' :: (f6 ++ ',' :: (f7 ++ ',' :: f8))))))) f4 (f5 ++ ',' :: (f6 ++ ',' :: (f7 ++ ',' :: f8))) (0 + f1.length + 1 + f2.length + 1 + f3.length) (0 + f1.length + 1 + f2.length + 1 + f3.length + 1 + f4.length) d3 rfl]
    rw [subStr_eval_succ (f1 ++ ',' :: (f2 ++ ',' :: (f3 ++ ',' :: (f4 ++ ',' :: (f5 ++ ',' :: (f6 ++ ',' :: (f7 ++ ',' :: f8))))))) f5 (f6 ++ ',' :: (f7 ++ ',' :: f8)) (0 + f1.length + 1 + f2.length + 1 + f3.length + 1 + f4.length) (0 + f1.length + 1 + f2.length + 1 + f3.length + 1 + f4.length + 1 + f5.length) d4 rfl]
    rw [subStr_eval_succ (f1 ++ ',' :: (f2 ++ ',' :: (f3 ++ ',' :: (f4 ++ ',' :: (f5 ++ ',' :: (f6 ++ ',' :: (f7 ++ ',' :: f8))))))) f6 (f7 ++ ',' :: f8) (0 + f1.length + 1 + f2.length + 1 + f3.length + 1 + f4.length + 1 + f5.length) (0 + f1.length + 1 + f2.length + 1 + f3.length + 1 + f4.length + 1 + f5.length + 1 + f6.length) d5 rfl]
    rw [subStr_eval_succ (f1 ++ ',' :: (f2 ++ ',' :: (f3 ++ ',' :: (f4 ++ ',' :: (f5 ++ ',' :: (f6 ++ ',' :: (f7 ++ ',' :: f8))))))) f7 (f8) (0 + f1.length + 1 + f2.length + 1 + f3.length + 1 + f4.length + 1 + f5.length + 1 + f6.length) (0 + f1.length + 1 + f2.length + 1 + f3.length + 1 + f4.length + 1 + f5.length + 1 + f6.length + 1 + f7.length) d6 rfl]
    rw [subStrFrom_eval_succ (f1 ++ ',' :: (f2 ++ ',' :: (f3 ++ ',' :: (f4 ++ ',' :: (f5 ++ ',' :: (f6 ++ ',' :: (f7 ++ ',' :: f8))))))) f8 (0 + f1.length + 1 + f2.length + 1 + f3.length + 1 + f4.length + 1 + f5.length + 1 + f6.length + 1 + f7.length) d7]
  · -- 9 fields
    show parseAlarmFields id (f1 ++ ',' :: (f2 ++ ',' :: (f3 ++ ',' :: (f4 ++ ',' :: (f5 ++ ',' :: (f6 ++ ',' :: (f7 ++ ',' :: (f8 ++ ',' :: f9)))))))) = _
    have hlen : ¬((f1 ++ ',' :: (f2 ++ ',' :: (f3 ++ ',' :: (f4 ++ ',' :: (f5 ++ ',' :: (f6 ++ ',' :: (f7 ++ ',' :: (f8 ++ ',' :: f9)))))))).length = 0) := by simp
    have e1 : strIndexOfFrom (f1 ++ ',' :: (f2 ++ ',' :: (f3 ++ ',' :: (f4 ++ ',' :: (f5 ++ ',' :: (f6 ++ ',' :: (f7 ++ ',' :: (f8 ++ ',' :: f9)))))))) ',' 0 = ((0 + f1.length : Nat) : Int) :=
      strIndexOfFrom_pos (f1 ++ ',' :: (f2 ++ ',' :: (f3 ++ ',' :: (f4 ++ ',' :: (f5 ++ ',' :: (f6 ++ ',' :: (f7 ++ ',' :: (f8 ++ ',' :: f9)))))))) f1 (f2 ++ ',' :: (f3 ++ ',' :: (f4 ++ ',' :: (f5 ++ ',' :: (f6 ++ ',' :: (f7 ++ ',' :: (f8 ++ ',' :: f9))))))) 0 (by rw [List.drop_zero]) nc1
    have d1 : List.drop (0 + f1.length + 1) (f1 ++ ',' :: (f2 ++ ',' :: (f3 ++ ',' :: (f4 ++ ',' :: (f5 ++ ',' :: (f6 ++ ',' :: (f7 ++ ',' :: (f8 ++ ',' :: f9)))))))) = f2 ++ ',' :: (f3 ++ ',' :: (f4 ++ ',' :: (f5 ++ ',' :: (f6 ++ ',' :: (f7 ++ ',' :: (f8 ++ ',' :: f9)))))) :=
      drop_chunk (f1 ++ ',' :: (f2 ++ ',' :: (f3 ++ ',' :: (f4 ++ ',' :: (f5 ++ ',' :: (f6 ++ ',' :: (f7 ++ ',' :: (f8 ++ ',' :: f9)))))))) f1 (f2 ++ ',' :: (f3 ++ ',' :: (f4 ++ ',' :: (f5 ++ ',' :: (f6 ++ ',' :: (f7 ++ ',' :: (f8 ++ ',' :: f9))))))) 0 (by rw [List.drop_zero])
    have e2 : nextComma (f1 ++ ',' :: (f2 ++ ',' :: (f3 ++ ',' :: (f4 ++ ',' :: (f5 ++ ',' :: (f6 ++ ',' :: (f7 ++ ',' :: (f8 ++ ',' :: f9)))))))) ((0 + f1.length : Nat) : Int) = ((0 + f1.length + 1 + f2.length : Nat) : Int) :=
      nextComma_pos (f1 ++ ',' :: (f2 ++ ',' :: (f3 ++ ',' :: (f4 ++ ',' :: (f5 ++ ',' :: (f6 ++ ',' :: (f7 ++ ',' :: (f8 ++ ',' :: f9)))))))) f2 (f3 ++ ',' :: (f4 ++ ',' :: (f5 ++ ',' :: (f6 ++ ',' :: (f7 ++ ',' :: (f8 ++ ',' :: f9)))))) (0 + f1.length) d1 nc2
    have d2 : List.drop (0 + f1.length + 1 + f2.length + 1) (f1 ++ ',' :: (f2 ++ ',' :: (f3 ++ ',' :: (f4 ++ ',' :: (f5 ++ ',' :: (f6 ++ ',' :: (f7 ++ ',' :: (f8 ++ ',' :: f9)))))))) = f3 ++ ',' :: (f4 ++ ',' :: (f5 ++ ',' :: (f6 ++ ',' :: (f7 ++ ',' :: (f8 ++ ',' :: f9))))) :=
      drop_chunk (f1 ++ ',' :: (f2 ++ ',' :: (f3 ++ ',' :: (f4 ++ ',' :: (f5 ++ ',' :: (f6 ++ ',' :: (f7 ++ ',' :: (f8 ++ ',' :: f9)))))))) f2 (f3 ++ ',' :: (f4 ++ ',' :: (f5 ++ ',' :: (f6 ++ ',' :: (f7 ++ ',' :: (f8 ++ ',' :: f9)))))) (0 + f1.length + 1) d1
    have e3 : nextComma (f1 ++ ',' :: (f2 ++ ',' :: (f3 ++ ',' :: (f4 ++ ',' :: (f5 ++ ',' :: (f6 ++ ',' :: (f7 ++ ',' :: (f8 ++ ',' :: f9)))))))) ((0 + f1.length + 1 + f2.length : Nat) : Int) = ((0 + f1.length + 1 + f2.length + 1 + f3.length : Nat) : Int) :=
      nextComma_pos (f1 ++ ',' :: (f2 ++ ',' :: (f3 ++ ',' :: (f4 ++ ',' :: (f5 ++ ',' :: (f6 ++ ',' :: (f7 ++ ',' :: (f8 ++ ',' :: f9)))))))) f3 (f4 ++ ',' :: (f5 ++ ',' :: (f6 ++ ',' :: (f7 ++ ',' :: (f8 ++ ',' :: f9))))) (0 + f1.length + 1 + f2.length) d2 nc3
    have d3 : List.drop (0 + f1.length + 1 + f2.length + 1 + f3.length + 1) (f1 ++ ',' :: (f2 ++ ',' :: (f3 ++ ',' :: (f4 ++ ',' :: (f5 ++ ',' :: (f6 ++ ',' :: (f7 ++ ',' :: (f8 ++ ',' :: f9)))))))) = f4 ++ ',' :: (f5 ++ ',' :: (f6 ++ ',' :: (f7 ++ ',' :: (f8 ++ ',' :: f9)))) :=
      drop_chunk (f1 ++ ',' :: (f2 ++ ',' :: (f3 ++ ',' :: (f4 ++ ',' :: (f5 ++ ',' :: (f6 ++ ',' :: (f7 ++ ',' :: (f8 ++ ',' :: f9)))))))) f3 (f4 ++ ',' :: (f5 ++ ',' :: (f6 ++ ',' :: (f7 ++ ',' :: (f8 ++ ',' :: f9))))) (0 + f1.length + 1 + f2.length + 1) d2
    have e4 : nextComma (f1 ++ ',' :: (f2 ++ ',' :: (f3 ++ ',' :: (f4 ++ ',' :: (f5 ++ ',' :: (f6 ++ ',' :: (f7 ++ ',' :: (f8 ++ ',' :: f9)))))))) ((0 + f1.length + 1 + f2.length + 1 + f3.length : Nat) : Int) = ((0 + f1.length + 1 + f2.length + 1 + f3.length + 1 + f4.length : Nat) : Int) :=
      nextComma_pos (f1 ++ ',' :: (f2 ++ ',' :: (f3 ++ ',' :: (f4 ++ ',' :: (f5 ++ ',' :: (f6 ++ ',' :: (f7 ++ ',' :: (f8 ++ ',' :: f9)))))))) f4 (f5 ++ ',' :: (f6 ++ ',' :: (f7 ++ ',' :: (f8 ++ ',' :: f9)))) (0 + f1.length + 1 + f2.length + 1 + f3.length) d3 nc4
    have d4 : List.drop (0 + f1.length + 1 + f2.length + 1 + f3.length + 1 + f4.length + 1) (f1 ++ ',' :: (f2 ++ ',' :: (f3 ++ ',' :: (f4 ++ ',' :: (f5 ++ ',' :: (f6 ++ ',' :: (f7 ++ ',' :: (f8 ++ ',' :: f9)))))))) = f5 ++ ',' :: (f6 ++ ',' :: (f7 ++ ',' :: (f8 ++ ',' :: f9))) :=
      drop_chunk (f1 ++ ',' :: (f2 ++ ',' :: (f3 ++ ',' :: (f4 ++ ',' :: (f5 ++ ',' :: (f6 ++ ',' :: (f7 ++ ',' :: (f8 ++ ',' :: f9)))))))) f4 (f5 ++ ',' :: (f6 ++ ',' :: (f7 ++ ',' :: (f8 ++ ',' :: f9)))) (0 + f1.length + 1 + f2.length + 1 + f3.length + 1) d3
    have e5 : nextComma (f1 ++ ',' :: (f2 ++ ',' :: (f3 ++ ',' :: (f4 ++ ',' :: (f5 ++ ',' :: (f6 ++ ',' :: (f7 ++ ',' :: (f8 ++ ',' :: f9)))))))) ((0 + f1.length + 1 + f2.length + 1 + f3.length + 1 + f4.length : Nat) : Int) = ((0 + f1.length + 1 + f2.length + 1 + f3.length + 1 + f4.length + 1 + f5.length : Nat) : Int) :=
      nextComma_pos (f1 ++ ',' :: (f2 ++ ',' :: (f3 ++ ',' :: (f4 ++ ',' :: (f5 ++ ',' :: (f6 ++ ',' :: (f7 ++ ',' :: (f8 ++ ',' :: f9)))))))) f5 (f6 ++ ',' :: (f7 ++ ',' :: (f8 ++ ',' :: f9))) (0 + f1.length + 1 + f2.length + 1 + f3.length + 1 + f4.length) d4 nc5
    have d5 : List.drop (0 + f1.length + 1 + f2.length + 1 + f3.length + 1 + f4.length + 1 + f5.length + 1) (f1 ++ ',' :: (f2 ++ ',' :: (f3 ++ ',' :: (f4 ++ ',' :: (f5 ++ ',' :: (f6 ++ ',' :: (f7 ++ ',' :: (f8 ++ ',' :: f9)))))))) = f6 ++ ',' :: (f7 ++ ',' :: (f8 ++ ',' :: f9)) :=
      drop_chunk (f1 ++ ',' :: (f2 ++ ',' :: (f3 ++ ',' :: (f4 ++ ',' :: (f5 ++ ',' :: (f6 ++ ',' :: (f7 ++ ',' :: (f8 ++ ',' :: f9)))))))) f5 (f6 ++ ',' :: (f7 ++ ',' :: (f8 ++ ',' :: f9))) (0 + f1.length + 1 + f2.length + 1 + f3.length + 1 + f4.length + 1) d4
    have e6 : nextComma (f1 ++ ',' :: (f2 ++ ',' :: (f3 ++ ',' :: (f4 ++ ',' :: (f5 ++ ',' :: (f6 ++ ',' :: (f7 ++ ',' :: (f8 ++ ',' :: f9)))))))) ((0 + f1.length + 1 + f2.length + 1 + f3.length + 1 + f4.length + 1 + f5.length : Nat) : Int) = ((0 + f1.length + 1 + f2.length + 1 + f3.length + 1 + f4.length + 1 + f5.length + 1 + f6.length : Nat) : Int) :=
      nextComma_pos (f1 ++ ',' :: (f2 ++ ',' :: (f3 ++ ',' :: (f4 ++ ',' :: (f5 ++ ',' :: (f6 ++ ',' :: (f7 ++ ',' :: (f8 ++ ',' :: f9)))))))) f6 (f7 ++ ',' :: (f8 ++ ',' :: f9)) (0 + f1.length + 1 + f2.length + 1 + f3.length + 1 + f4.length + 1 + f5.length) d5 nc6
    have d6 : List.drop (0 + f1.length + 1 + f2.length + 1 + f3.length + 1 + f4.length + 1 + f5.length + 1 + f6.length + 1) (f1 ++ ',' :: (f2 ++ ',' :: (f3 ++ ',' :: (f4 ++ ',' :: (f5 ++ ',' :: (f6 ++ ',' :: (f7 ++ ',' :: (f8 ++ ',' :: f9)))))))) = f7 ++ ',' :: (f8 ++ ',' :: f9) :=
      drop_chunk (f1 ++ ',' :: (f2 ++ ',' :: (f3 ++ ',' :: (f4 ++ ',' :: (f5 ++ ',' :: (f6 ++ ',' :: (f7 ++ ',' :: (f8 ++ ',' :: f9)))))))) f6 (f7 ++ ',' :: (f8 ++ ',' :: f9)) (0 + f1.length + 1 + f2.length + 1 + f3.length + 1 + f4.length + 1 + f5.length + 1) d5
    have e7 : nextComma (f1 ++ ',' :: (f2 ++ ',' :: (f3 ++ ',' :: (f4 ++ ',' :: (f5 ++ ',' :: (f6 ++ ',' :: (f7 ++ ',' :: (f8 ++ ',' :: f9)))))))) ((0 + f1.length + 1 + f2.length + 1 + f3.length + 1 + f4.length + 1 + f5.length + 1 + f6.length : Nat) : Int) = ((0 + f1.length + 1 + f2.length + 1 + f3.length + 1 + f4.length + 1 + f5.length + 1 + f6.length + 1 + f7.length : Nat) : Int) :=
      nextComma_pos (f1 ++ ',' :: (f2 ++ ',' :: (f3 ++ ',' :: (f4 ++ ',' :: (f5 ++ ',' :: (f6 ++ ',' :: (f7 ++ ',' :: (f8 ++ ',' :: f9)))))))) f7 (f8 ++ ',' :: f9) (0 + f1.length + 1 + f2.length + 1 + f3.length + 1 + f4.length + 1 + f5.length + 1 + f6.length) d6 nc7
    have d7 : List.drop (0 + f1.length + 1 + f2.length + 1 + f3.length + 1 + f4.length + 1 + f5.length + 1 + f6.length + 1 + f7.length + 1) (f1 ++ ',' :: (f2 ++ ',' :: (f3 ++ ',' :: (f4 ++ ',' :: (f5 ++ ',' :: (f6 ++ ',' :: (f7 ++ ',' :: (f8 ++ ',' :: f9)))))))) = f8 ++ ',' :: f9 :=
      drop_chunk (f1 ++ ',' :: (f2 ++ ',' :: (f3 ++ ',' :: (f4 ++ ',' :: (f5 ++ ',' :: (f6 ++ ',' :: (f7 ++ ',' :: (f8 ++ ',' :: f9)))))))) f7 (f8 ++ ',' :: f9) (0 + f1.length + 1 + f2.length + 1 + f3.length + 1 + f4.length + 1 + f5.length + 1 + f6.length + 1) d6
    have e8 : nextComma (f1 ++ ',' :: (f2 ++ ',' :: (f3 ++ ',' :: (f4 ++ ',' :: (f5 ++ ',' :: (f6 ++ ',' :: (f7 ++ ',' :: (f8 ++ ',' :: f9)))))))) ((0 + f1.length + 1 + f2.length + 1 + f3.length + 1 + f4.length + 1 + f5.length + 1 + f6.length + 1 + f7.length : Nat) : Int) = ((0 + f1.length + 1 + f2.length + 1 + f3.length + 1 + f4.length + 1 + f5.length + 1 + f6.length + 1 + f7.length + 1 + f8.length : Nat) : Int) :=
      nextComma_pos (f1 ++ ',' :: (f2 ++ ',' :: (f3 ++ ',' :: (f4 ++ ',' :: (f5 ++ ',' :: (f6 ++ ',' :: (f7 ++ ',' :: (f8 ++ ',' :: f9)))))))) f8 (f9) (0 + f1.length + 1 + f2.length + 1 + f3.length + 1 + f4.length + 1 + f5.length + 1 + f6.length + 1 + f7.length) d7 nc8
    have d8 : List.drop (0 + f1.length + 1 + f2.length + 1 + f3.length + 1 + f4.length + 1 + f5.length + 1 + f6.length + 1 + f7.length + 1 + f8.length + 1) (f1 ++ ',' :: (f2 ++ ',' :: (f3 ++ ',' :: (f4 ++ ',' :: (f5 ++ ',' :: (f6 ++ ',' :: (f7 ++ ',' :: (f8 ++ ',' :: f9)))))))) = f9 :=
      drop_chunk (f1 ++ ',' :: (f2 ++ ',' :: (f3 ++ ',' :: (f4 ++ ',' :: (f5 ++ ',' :: (f6 ++ ',' :: (f7 ++ ',' :: (f8 ++ ',' :: f9)))))))) f8 (f9) (0 + f1.length + 1 + f2.length + 1 + f3.length + 1 + f4.length + 1 + f5.length + 1 + f6.length + 1 + f7.length + 1) d7
    have er : nextComma (f1 ++ ',' :: (f2 ++ ',' :: (f3 ++ ',' :: (f4 ++ ',' :: (f5 ++ ',' :: (f6 ++ ',' :: (f7 ++ ',' :: (f8 ++ ',' :: f9)))))))) (-1) = ((0 + f1.length : Nat) : Int) := (nextComma_restart (f1 ++ ',' :: (f2 ++ ',' :: (f3 ++ ',' :: (f4 ++ ',' :: (f5 ++ ',' :: (f6 ++ ',' :: (f7 ++ ',' :: (f8 ++ ',' :: f9))))))))).trans e1
    simp only [parseAlarmFields]
    rw [if_neg hlen]
    rw [e1, e2, e3, e4, e5, e6, e7, e8]
    have hl1 : 0 < f1.length := List.length_pos.mpr hf1
    rw [if_pos ⟨by omega, by omega, by omega, by omega⟩]
    rw [if_pos ⟨by omega, by omega, by omega, by omega⟩]
    rw [subStr_eval0 (f1 ++ ',' :: (f2 ++ ',' :: (f3 ++ ',' :: (f4 ++ ',' :: (f5 ++ ',' :: (f6 ++ ',' :: (f7 ++ ',' :: (f8 ++ ',' :: f9)))))))) f1 (f2 ++ ',' :: (f3 ++ ',' :: (f4 ++ ',' :: (f5 ++ ',' :: (f6 ++ ',' :: (f7 ++ ',' :: (f8 ++ ',' :: f9))))))) (0 + f1.length) rfl (by omega)]
    rw [subStr_eval_succ (f1 ++ ',' :: (f2 ++ ',' :: (f3 ++ ',' :: (f4 ++ ',' :: (f5 ++ ',' :: (f6 ++ ',' :: (f7 ++ ',' :: (f8 ++ ',' :: f9)))))))) f2 (f3 ++ ',' :: (f4 ++ ',' :: (f5 ++ ',' :: (f6 ++ ',' :: (f7 ++ ',' :: (f8 ++ ',' :: f9)))))) (0 + f1.length) (0 + f1.length + 1 + f2.length) d1 rfl]
    rw [subStr_eval_succ (f1 ++ ',' :: (f2 ++ ',' :: (f3 ++ ',' :: (f4 ++ ',' :: (f5 ++ ',' :: (f6 ++ ',' :: (f7 ++ ',' :: (f8 ++ ',' :: f9)))))))) f3 (f4 ++ ',' :: (f5 ++ ',' :: (f6 ++ ',' :: (f7 ++ ',' :: (f8 ++ ',' :: f9))))) (0 + f1.length + 1 + f2.length) (0 + f1.length + 1 + f2.length + 1 + f3.length) d2 rfl]
    rw [subStr_eval_succ (f1 ++ ',' :: (f2 ++ ',' :: (f3 ++ ',' :: (f4 ++ ',' :: (f5 ++ ',' :: (f6 ++ ',' :: (f7 ++ ',' :: (f8 ++ ',' :: f9)))))))) f4 (f5 ++ ',' :: (f6 ++ ',' :: (f7 ++ ',' :: (f8 ++ ',' :: f9)))) (0 + f1.length + 1 + f2.length + 1 + f3.length) (0 + f1.length + 1 + f2.length + 1 + f3.length + 1 + f4.length) d3 rfl]
    rw [subStr_eval_succ (f1 ++ ',' :: (f2 ++ ',' :: (f3 ++ ',' :: (f4 ++ ',' :: (f5 ++ ',' :: (f6 ++ ',' :: (f7 ++ ',' :: (f8 ++ ',' :: f9)))))))) f5 (f6 ++ ',' :: (f7 ++ ',' :: (f8 ++ ',' :: f9))) (0 + f1.length + 1 + f2.length + 1 + f3.length + 1 + f4.length) (0 + f1.length + 1 + f2.length + 1 + f3.length + 1 + f4.length + 1 + f5.length) d4 rfl]
    rw [subStr_eval_succ (f1 ++ ',' :: (f2 ++ ',' :: (f3 ++ ',' :: (f4 ++ ',' :: (f5 ++ ',' :: (f6 ++ ',' :: (f7 ++ ',' :: (f8 ++ ',' :: f9)))))))) f6 (f7 ++ ',' :: (f8 ++ ',' :: f9)) (0 + f1.length + 1 + f2.length + 1 + f3.length + 1 + f4.length + 1 + f5.length) (0 + f1.length + 1 + f2.length + 1 + f3.length + 1 + f4.length + 1 + f5.length + 1 + f6.length) d5 rfl]
    rw [subStr_eval_succ (f1 ++ ',' :: (f2 ++ ',' :: (f3 ++ ',' :: (f4 ++ ',' :: (f5 ++ ',' :: (f6 ++ ',' :: (f7 ++ ',' :: (f8 ++ ',' :: f9)))))))) f7 (f8 ++ ',' :: f9) (0 + f1.length + 1 + f2.length + 1 + f3.length + 1 + f4.length + 1 + f5.length + 1 + f6.length) (0 + f1.length + 1 + f2.length + 1 + f3.length + 1 + f4.length + 1 + f5.length + 1 + f6.length + 1 + f7.length) d6 rfl]
    rw [subStr_eval_succ (f1 ++ ',' :: (f2 ++ ',' :: (f3 ++ ',' :: (f4 ++ ',' :: (f5 ++ ',' :: (f6 ++ ',' :: (f7 ++ ',' :: (f8 ++ ',' :: f9)))))))) f8 (f9) (0 + f1.length + 1 + f2.length + 1 + f3.length + 1 + f4.length + 1 + f5.length + 1 + f6.length + 1 + f7.length) (0 + f1.length + 1 + f2.length + 1 + f3.length + 1 + f4.length + 1 + f5.length + 1 + f6.length + 1 + f7.length + 1 + f8.length) d7 rfl]
    rw [subStrFrom_eval_succ (f1 ++ ',' :: (f2 ++ ',' :: (f3 ++ ',' :: (f4 ++ ',' :: (f5 ++ ',' :: (f6 ++ ',' :: (f7 ++ ',' :: (f8 ++ ',' :: f9)))))))) f9 (0 + f1.length + 1 + f2.length + 1 + f3.length + 1 + f4.length + 1 + f5.length + 1 + f6.length + 1 + f7.length + 1 + f8.length) d8]

/-- Counterexample to C8 as stated: the string encoding only the first four
fields (hour, minute, daysOfWeek, enabled) is a prefix of the ordered field
list, but the loader rejects it (no record decoded): the code requires at
least the first four separators, so prefixes shorter than five fields are
dropped instead of being filled with defaults. -/
theorem parse_short_prefix_rejected_counterexample :
    parseAlarmRecord 3 "7,30,0,1" = none := rfl

/-- Witness for C8 (amended): the 5-field record 7,30,0,1,beep decodes with
hour 7, minute 30, mask 0, enabled, sound beep, and the version defaults
for the missing trailing fields. -/
theorem parse_prefix_spec_witness :
    parseAlarmRecord 2 (String.mk (['7'] ++ ',' :: (['3', '0'] ++ ',' ::
        (['0'] ++ ',' :: (['1'] ++ ',' :: ['b', 'e', 'e', 'p']))))) =
      some { id := 2, hour := toU8 (atoiChars ['7']),
             minute := toU8 (atoiChars ['3', '0']),
             daysOfWeek := toU8 (atoiChars ['0']),
             enabled := atoiChars ['1'] == 1,
             sound := String.mk ['b', 'e', 'e', 'p'], label := "Alarm",
             snoozeEnabled := true, permanentlyDisabled := false,
             bottomRowLabel := "" } :=
  (parse_prefix_spec 2 ['7'] ['3', '0'] ['0'] ['1'] ['b', 'e', 'e', 'p']
    ['x'] ['x'] ['x'] ['x'] (by decide) (by decide) (by decide) (by decide)
    (by decide) (by decide) (by decide) (by decide) (by decide) (by decide)).1

end AlarmClock
